import Mathlib

/-!
Verification of the fireflies-meeting-analyzer core against its design
specification.

The development shallowly embeds the Python modules
`src/fireflies_client.py`, `src/ai_analyzer.py` and `src/exporter.py`:

* JSON values (the results of Python's `json.loads`) are the inductive
  type `Json`.  JSON numbers are modelled as integers: no claim computes
  on fractional values, so inputs with fractional or exponent parts are
  outside the model.
* Python's dynamic failure modes that the code can actually hit
  (`TypeError` from iterating a non-iterable, `AttributeError` from
  calling `.get` on a non-dict) are modelled with `Except PyErr`.
  The extra `PyErr.typeMismatch` marks inputs outside the typed
  fragment of the model (JSON values of unexpected shape stored into
  string-typed dataclass fields); it does not correspond to a Python
  exception.
* `datetime.now()` values are passed in explicitly as already rendered
  strings, since the code only ever formats them.
-/

/-- A parsed JSON value, the result of Python's `json.loads`.
Objects are insertion-ordered association lists, as Python dicts are. -/
inductive Json where
  | jNull : Json
  | jBool : Bool → Json
  | jNum : Int → Json
  | jStr : String → Json
  | jArr : List Json → Json
  | jObj : List (String × Json) → Json

open Json

/-- Python runtime errors the embedded code can raise, plus a marker for
inputs outside the typed fragment of the model. -/
inductive PyErr where
  | typeError : PyErr
  | attributeError : PyErr
  | typeMismatch : PyErr
  deriving DecidableEq

/-- Lookup in a Python dict (first matching key). -/
def jlookup : List (String × Json) → String → Option Json
  | [], _ => none
  | (k, v) :: rest, key => if k = key then some v else jlookup rest key

/-- `d[k] = v` on a Python dict: overwrite an existing key in place,
otherwise append at the end (insertion order). -/
def pyDictSet : List (String × Json) → String → Json → List (String × Json)
  | [], k, v => [(k, v)]
  | (k0, v0) :: rest, k, v =>
      if k0 = k then (k0, v) :: rest else (k0, v0) :: pyDictSet rest k v

/-- Python's `d.get(key, default)`: only dicts have `.get`; any other
value raises `AttributeError`. -/
def pyGet : Json → String → Json → Except PyErr Json
  | jObj fields, k, dflt => Except.ok ((jlookup fields k).getD dflt)
  | _, _, _ => Except.error PyErr.attributeError

/-- Python's `for x in v`: arrays yield elements, strings yield their
characters (as one-character strings), dicts yield their keys; numbers,
booleans and `None` raise `TypeError`. -/
def pyIter : Json → Except PyErr (List Json)
  | jArr l => Except.ok l
  | jStr s => Except.ok (s.data.map (fun c => jStr (String.mk [c])))
  | jObj fields => Except.ok (fields.map (fun p => jStr p.1))
  | _ => Except.error PyErr.typeError

/-- Python truthiness of a JSON value. -/
def pyTruthy : Json → Bool
  | jNull => false
  | jBool b => b
  | jNum n => n != 0
  | jStr s => s != ""
  | jArr l => !l.isEmpty
  | jObj f => !f.isEmpty

/-- Python's `repr` on a JSON value, used for values interpolated inside
containers.  Quote-selection subtleties of Python's `repr` for strings
containing quotes are not reproduced; no claim depends on them. -/
def pyRepr : Json → String
  | jNull => "None"
  | jBool true => "True"
  | jBool false => "False"
  | jNum n => toString n
  | jStr s => "'" ++ s ++ "'"
  | jArr l =>
      "[" ++ String.intercalate ", " (l.attach.map (fun ⟨a, h⟩ => pyRepr a)) ++ "]"
  | jObj f =>
      "\x7b" ++
        String.intercalate ", "
          (f.attach.map (fun ⟨⟨k, v⟩, h⟩ => "'" ++ k ++ "': " ++ pyRepr v)) ++
        "\x7d"
decreasing_by
  all_goals simp_wf
  all_goals
    have := List.sizeOf_lt_of_mem h
    try simp at this
    omega

/-- Python's `str` on a JSON value, as used by f-string interpolation. -/
def pyStr : Json → String
  | jStr s => s
  | v => pyRepr v

/-- `needle` is a prefix of `hay` (character lists). -/
def chListStarts : List Char → List Char → Bool
  | [], _ => true
  | _ :: _, [] => false
  | a :: as, b :: bs => (a == b) && chListStarts as bs

/-- `needle` occurs as a contiguous run inside `hay` (character lists). -/
def chListSub : List Char → List Char → Bool
  | n, [] => n.isEmpty
  | n, h :: t => chListStarts n (h :: t) || chListSub n t

/-- Python's `needle in hay` on strings: substring containment. -/
def pyInStr (needle hay : String) : Bool :=
  chListSub needle.data hay.data

/-- Python's `str.lower()` (per-character lowering). -/
def pyLower (s : String) : String :=
  String.mk (s.data.map Char.toLower)

/-! ## A model of Python's `json.loads`

Recursive-descent parser over the character list, with a fuel argument
for termination.  It accepts the JSON fragment that the claims exercise:
`null`, booleans, integer numbers, strings with the single-character
escapes, arrays and objects.  Duplicate object keys keep the last value,
as `json.loads` does.  The whole input (up to surrounding JSON
whitespace) must be consumed, as with `json.loads`. -/

/-- JSON whitespace characters accepted by `json.loads`. -/
def isJsonWs (c : Char) : Bool :=
  c == ' ' || c == '\t' || c == '\n' || c == '\r'

/-- Drop leading JSON whitespace. -/
def skipWs : List Char → List Char
  | [] => []
  | c :: rest => if isJsonWs c then skipWs rest else c :: rest

/-- Single-character string escapes of JSON (`\uXXXX` is outside the
model; no claim exercises it). -/
def escChar (e : Char) : Option Char :=
  if e == 'n' then some '\n'
  else if e == 't' then some '\t'
  else if e == 'r' then some '\r'
  else if e == 'b' then some (Char.ofNat 8)
  else if e == 'f' then some (Char.ofNat 12)
  else if e == '"' then some '"'
  else if e == '\\' then some '\\'
  else if e == '/' then some '/'
  else none

/-- Parse the remainder of a JSON string literal (the opening quote is
already consumed), accumulating characters in reverse. -/
def strLitLoop (acc : List Char) : List Char → Option (String × List Char)
  | [] => none
  | c :: rest =>
      if c = '"' then some (String.mk acc.reverse, rest)
      else if c = '\\' then
        match rest with
        | [] => none
        | e :: rest2 =>
            match escChar e with
            | some ec => strLitLoop (ec :: acc) rest2
            | none => none
      else if c.toNat < 32 then none
      else strLitLoop (c :: acc) rest

/-- Take a maximal run of leading decimal digits. -/
def takeDigits : List Char → (List Char × List Char)
  | [] => ([], [])
  | c :: rest =>
      if c.isDigit then
        let (ds, r) := takeDigits rest
        (c :: ds, r)
      else ([], c :: rest)

/-- Digit characters to a natural number. -/
def digitsVal (ds : List Char) : Nat :=
  ds.foldl (fun acc c => acc * 10 + (c.toNat - 48)) 0

/-- Parse a JSON integer literal (optional minus, no leading zeros).
A following `.`, `e` or `E` (a float literal) is outside the model and
fails the parse. -/
def parseNatLit (cs : List Char) : Option (Nat × List Char) :=
  match takeDigits cs with
  | ([], _) => none
  | (d :: ds, rest) =>
      if d = '0' ∧ ds ≠ [] then none
      else
        match rest with
        | '.' :: _ => none
        | 'e' :: _ => none
        | 'E' :: _ => none
        | _ => some (digitsVal (d :: ds), rest)

/-- Parse a JSON integer literal (optional minus sign in front of the
natural-number literal). -/
def parseIntLit (cs : List Char) : Option (Int × List Char) :=
  match cs with
  | '-' :: rest =>
      (match parseNatLit rest with
       | some (n, r) => some (-(Int.ofNat n), r)
       | none => none)
  | _ =>
      (match parseNatLit cs with
       | some (n, r) => some (Int.ofNat n, r)
       | none => none)

mutual

/-- Parse one JSON value (after skipping leading whitespace). -/
def parseVal : Nat → List Char → Option (Json × List Char)
  | 0, _ => none
  | fuel + 1, cs =>
      match skipWs cs with
      | [] => none
      | 'n' :: 'u' :: 'l' :: 'l' :: rest => some (jNull, rest)
      | 't' :: 'r' :: 'u' :: 'e' :: rest => some (jBool true, rest)
      | 'f' :: 'a' :: 'l' :: 's' :: 'e' :: rest => some (jBool false, rest)
      | '"' :: rest =>
          match strLitLoop [] rest with
          | some (s, r) => some (jStr s, r)
          | none => none
      | '[' :: rest =>
          (match skipWs rest with
           | ']' :: r => some (jArr [], r)
           | other => parseItems fuel [] other)
      | '\x7b' :: rest =>
          (match skipWs rest with
           | '\x7d' :: r => some (jObj [], r)
           | other => parseMembers fuel [] other)
      | other => Option.map (fun p => (jNum p.1, p.2)) (parseIntLit other)

/-- Parse the elements of a non-empty JSON array, accumulated in
reverse. -/
def parseItems : Nat → List Json → List Char → Option (Json × List Char)
  | 0, _, _ => none
  | fuel + 1, acc, cs =>
      match parseVal fuel cs with
      | none => none
      | some (v, rest) =>
          match skipWs rest with
          | ',' :: r => parseItems fuel (v :: acc) r
          | ']' :: r => some (jArr (v :: acc).reverse, r)
          | _ => none

/-- Parse the members of a non-empty JSON object; duplicate keys keep
the last value, as Python dicts do. -/
def parseMembers : Nat → List (String × Json) → List Char → Option (Json × List Char)
  | 0, _, _ => none
  | fuel + 1, acc, cs =>
      match skipWs cs with
      | '"' :: rest =>
          (match strLitLoop [] rest with
           | none => none
           | some (k, r1) =>
               match skipWs r1 with
               | ':' :: r2 =>
                   (match parseVal fuel r2 with
                    | none => none
                    | some (v, r3) =>
                        match skipWs r3 with
                        | ',' :: r4 => parseMembers fuel (pyDictSet acc k v) r4
                        | '\x7d' :: r4 => some (jObj (pyDictSet acc k v), r4)
                        | _ => none)
               | _ => none)
      | _ => none

end

/-- Python's `json.loads`: parse the whole text as one JSON value,
requiring that nothing but whitespace follows. -/
def jsonLoads (s : String) : Option Json :=
  match parseVal (2 * s.data.length + 2) s.data with
  | some (v, rest) => if skipWs rest = [] then some v else none
  | none => none

/-- Index of the first `'\x7b'` in the text, if any. -/
def firstOpenIdx (cs : List Char) : Option Nat :=
  cs.findIdx? (fun c => c == '\x7b')

/-- Index of the last `'\x7d'` in the text, if any. -/
def lastCloseIdx (cs : List Char) : Option Nat :=
  match cs.reverse.findIdx? (fun c => c == '\x7d') with
  | some k => some (cs.length - 1 - k)
  | none => none

/-- The greedy brace-delimited span found by
`re.search(r'\x7b[\s\S]*\x7d', response)`: from the first opening brace
to the last closing brace, provided the latter comes strictly after the
former. -/
def braceSpan (s : String) : Option String :=
  match firstOpenIdx s.data, lastCloseIdx s.data with
  | some i, some j =>
      if i < j then some (String.mk ((s.data.drop i).take (j - i + 1))) else none
  | _, _ => none

/-- `AIAnalyzer._parse_response`: try the whole text as JSON; failing
that, try the greedy brace-delimited span; failing both, return the
empty object. -/
def parse_response (response : String) : Json :=
  match jsonLoads response with
  | some v => v
  | none =>
      match braceSpan response with
      | some sp => (jsonLoads sp).getD (jObj [])
      | none => jObj []

/-! ## Transcript data model (`src/fireflies_client.py`)

The `Speaker`, `Sentence`, `MeetingSummary` and `Meeting` dataclasses.
Float-typed fields (`duration`, `start_time`, `end_time`) are modelled
as integers: no claim computes on them. -/

/-- The `Speaker` dataclass. -/
structure Speaker where
  id : String
  name : String
  email : Option String := none
  duration : Int := 0
  word_count : Int := 0
  is_host : Bool := false
  deriving DecidableEq

/-- The `Sentence` dataclass. -/
structure Sentence where
  index : Int
  text : String
  speaker_id : String
  speaker_name : String
  start_time : Int
  end_time : Int
  raw_text : Option String := none
  deriving DecidableEq

/-- The `MeetingSummary` dataclass. -/
structure MeetingSummary where
  keywords : List String := []
  action_items : List String := []
  outline : List String := []
  meeting_type : Option String := none
  questions : List String := []
  deriving DecidableEq

/-- The meeting date.  `_parse_transcript` either converts an epoch
millisecond number, parses an ISO string, or falls back to the current
time; no claim computes on dates, so the three construction paths are
kept symbolically. -/
inductive MeetingDate where
  | fromMillis : Int → MeetingDate
  | fromIso : String → MeetingDate
  | now : MeetingDate
  deriving DecidableEq

/-- The `Meeting` dataclass. -/
structure Meeting where
  id : String
  title : String
  date : MeetingDate
  duration : Int
  host_email : Option String
  organizer_email : Option String
  speakers : List Speaker
  sentences : List Sentence
  summary : MeetingSummary
  transcript_url : Option String := none
  participants : List String := []
  deriving DecidableEq

/-- The effective host-marker set built at the top of
`Meeting.get_lead_statements`: the caller-supplied identifiers plus the
meeting's `host_email` and `organizer_email` lower-cased when truthy.
The Python set is modelled as a list used only through membership. -/
def Meeting.hostMarkers (m : Meeting) (host_identifiers : List String) : List String :=
  let ms := host_identifiers
  let ms :=
    match m.host_email with
    | some e => if e ≠ "" then ms ++ [pyLower e] else ms
    | none => ms
  match m.organizer_email with
  | some e => if e ≠ "" then ms ++ [pyLower e] else ms
  | none => ms

/-- `speaker.email.lower() if speaker.email else ""`: lower-case a
truthy optional string, `""` otherwise. -/
def optLowerTruthy : Option String → String
  | some e => if e ≠ "" then pyLower e else ""
  | none => ""

/-- The marker branch of the per-speaker host test: some truthy marker
is a substring of the lower-cased speaker name or of the lower-cased
speaker email (`""` when the name or email is falsy). -/
def Meeting.markerMatches (m : Meeting) (host_identifiers : List String)
    (speaker : Speaker) : Bool :=
  let speaker_lower := if speaker.name ≠ "" then pyLower speaker.name else ""
  let email_lower := optLowerTruthy speaker.email
  (m.hostMarkers host_identifiers).any
    (fun marker =>
      marker != "" && (pyInStr marker speaker_lower || pyInStr marker email_lower))

/-- The full per-speaker host test (`if speaker.is_host: ... elif any(...)`). -/
def Meeting.isHostSpeaker (m : Meeting) (host_identifiers : List String)
    (speaker : Speaker) : Bool :=
  speaker.is_host || m.markerMatches host_identifiers speaker

/-- The computed host-speaker-id set of `get_lead_statements`. -/
def Meeting.hostSpeakerIds (m : Meeting) (host_identifiers : List String) : List String :=
  (m.speakers.filter (m.isHostSpeaker host_identifiers)).map (fun sp => sp.id)

/-- `Meeting.get_lead_statements`: the sentences whose `speaker_id` is
not in the host-speaker-id set.  The Python `None` default for
`host_identifiers` amounts to the empty list. -/
def Meeting.get_lead_statements (m : Meeting) (host_identifiers : List String) :
    List Sentence :=
  m.sentences.filter
    (fun s => !((m.hostSpeakerIds host_identifiers).contains s.speaker_id))

/-- `Meeting.get_lead_questions`: lead statements containing a literal
question mark. -/
def Meeting.get_lead_questions (m : Meeting) (host_identifiers : List String) :
    List Sentence :=
  (m.get_lead_statements host_identifiers).filter (fun s => pyInStr "?" s.text)

/-- Lowering the empty string gives the empty string. -/
theorem pyLower_empty : pyLower "" = "" := rfl

/-- The guarded lowering `name.lower() if name else ""` equals plain
lowering. -/
theorem pyLower_if_collapse (n : String) :
    (if n ≠ "" then pyLower n else "") = pyLower n := by
  by_cases h : n = ""
  · subst h; simp [pyLower_empty]
  · simp [h]

/-- Membership in the computed host-speaker-id set, characterised by the
per-speaker host test. -/
theorem mem_hostSpeakerIds (m : Meeting) (ids : List String) (x : String) :
    x ∈ m.hostSpeakerIds ids ↔
      ∃ sp ∈ m.speakers, sp.id = x ∧
        (sp.is_host = true ∨ m.markerMatches ids sp = true) := by
  simp only [Meeting.hostSpeakerIds, List.mem_map, List.mem_filter,
    Meeting.isHostSpeaker, Bool.or_eq_true]
  constructor
  · rintro ⟨sp, ⟨hmem, hcond⟩, hid⟩
    exact ⟨sp, hmem, hid, hcond⟩
  · rintro ⟨sp, hmem, hid, hcond⟩
    exact ⟨sp, ⟨hmem, hcond⟩, hid⟩

/-- C1: `get_lead_statements` returns a subsequence of the meeting's
sentences in their original list order; no returned sentence has a
`speaker_id` in the computed host-speaker-id set; and a speaker's id is
in that set exactly when its explicit host flag is set or a marker
matches its name or email. -/
theorem C1_attribution_sound (m : Meeting) (ids : List String) :
    (m.get_lead_statements ids).Sublist m.sentences
    ∧ (∀ s ∈ m.get_lead_statements ids, s.speaker_id ∉ m.hostSpeakerIds ids)
    ∧ (∀ x, x ∈ m.hostSpeakerIds ids ↔
        ∃ sp ∈ m.speakers, sp.id = x ∧
          (sp.is_host = true ∨ m.markerMatches ids sp = true)) := by
  refine ⟨List.filter_sublist _, ?_, fun x => mem_hostSpeakerIds m ids x⟩
  intro s hs hmem
  have hcond := (List.mem_filter.mp hs).2
  rw [Bool.not_eq_true'] at hcond
  rw [← List.elem_iff] at hmem
  rw [List.contains] at hcond
  exact absurd hmem (by rw [hcond]; exact Bool.false_ne_true)

/-- Modelled from the spec's words (§4.1), for comparison with the
code's `Meeting.markerMatches`: a non-empty marker matches a speaker
when it is a case-insensitive substring of the speaker's name or email. -/
def specCaseInsensitiveMatch (markers : List String) (speaker : Speaker) : Bool :=
  markers.any
    (fun marker =>
      marker != "" &&
        (pyInStr (pyLower marker) (pyLower speaker.name)
          || pyInStr (pyLower marker) (pyLower (speaker.email.getD ""))))

/-- Concrete speaker for the C2 counterexample. -/
def spC2 : Speaker :=
  { id := "s1", name := "John Host", email := none }

/-- Concrete sentence for the C2 counterexample. -/
def sentC2 : Sentence :=
  { index := 0, text := "hello", speaker_id := "s1", speaker_name := "John Host",
    start_time := 0, end_time := 1 }

/-- Concrete meeting for the C2 counterexample. -/
def mtgC2 : Meeting :=
  { id := "m1", title := "demo", date := MeetingDate.now, duration := 30,
    host_email := none, organizer_email := none,
    speakers := [spC2], sentences := [sentC2], summary := {} }

/-- C2 fails on the code: the caller-supplied marker `"Host"` differs
from a substring of the speaker's name only in letter case and is a
case-insensitive substring of that name, yet the speaker (host flag
unset) is not classified as host, because caller identifiers are not
lower-cased before the substring test. -/
theorem C2_counterexample :
    spC2.is_host = false
    ∧ specCaseInsensitiveMatch (mtgC2.hostMarkers ["Host"]) spC2 = true
    ∧ mtgC2.isHostSpeaker ["Host"] spC2 = false
    ∧ mtgC2.get_lead_statements ["Host"] = [sentC2] := by
  decide

/-- The guarded email lowering of `get_lead_statements` equals plain
lowering of the optional email with `""` default. -/
theorem optLowerTruthy_eq (em : Option String) :
    optLowerTruthy em = pyLower (em.getD "") := by
  cases em with
  | none => simp [optLowerTruthy, pyLower_empty]
  | some e => simp only [optLowerTruthy, Option.getD_some, pyLower_if_collapse]

/-- C2 amended: a speaker with the host flag unset is classified as host
exactly when some non-empty effective marker is, verbatim, a substring
of the lower-cased name or lower-cased email; only the speaker side is
lower-cased, so the classification is invariant under the case of the
speaker's name but not under the case of caller-supplied markers. -/
theorem C2_marker_matching_amended (m : Meeting) (ids : List String) (sp : Speaker)
    (name' : String) (hflag : sp.is_host = false)
    (hcase : pyLower name' = pyLower sp.name) :
    (m.isHostSpeaker ids sp = true ↔
      ∃ marker ∈ m.hostMarkers ids, marker ≠ "" ∧
        (pyInStr marker (pyLower sp.name) = true
          ∨ pyInStr marker (pyLower (sp.email.getD "")) = true))
    ∧ m.isHostSpeaker ids { sp with name := name' } = m.isHostSpeaker ids sp := by
  have hmm : ∀ n : String, pyLower n = pyLower sp.name →
      m.markerMatches ids { sp with name := n } =
        (m.hostMarkers ids).any
          (fun marker =>
            marker != "" &&
              (pyInStr marker (pyLower sp.name)
                || pyInStr marker (pyLower (sp.email.getD "")))) := by
    intro n hn
    simp only [Meeting.markerMatches, pyLower_if_collapse, optLowerTruthy_eq]
    simp only [hn]
  constructor
  · have hself := hmm sp.name rfl
    simp only [Meeting.isHostSpeaker, hflag, Bool.false_or]
    have : ({ sp with name := sp.name } : Speaker) = sp := rfl
    rw [this] at hself
    rw [hself]
    simp [List.any_eq_true, Bool.and_eq_true, Bool.or_eq_true, bne_iff_ne]
  · have hself := hmm sp.name rfl
    have hother := hmm name' hcase
    have : ({ sp with name := sp.name } : Speaker) = sp := rfl
    rw [this] at hself
    simp only [Meeting.isHostSpeaker, hother, hself]

/-- Witness for the amended C2 at concrete inputs. -/
theorem C2_marker_matching_amended_witness :
    spC2.is_host = false
    ∧ pyLower "john HOST" = pyLower spC2.name
    ∧ ((mtgC2.isHostSpeaker ["host"] spC2 = true ↔
        ∃ marker ∈ mtgC2.hostMarkers ["host"], marker ≠ "" ∧
          (pyInStr marker (pyLower spC2.name) = true
            ∨ pyInStr marker (pyLower (spC2.email.getD "")) = true))
       ∧ mtgC2.isHostSpeaker ["host"] { spC2 with name := "john HOST" } =
          mtgC2.isHostSpeaker ["host"] spC2) :=
  ⟨rfl, by decide,
    C2_marker_matching_amended mtgC2 ["host"] spC2 "john HOST" rfl (by decide)⟩

/-! ## Analysis result model (`src/ai_analyzer.py`)

The record dataclasses and `AIAnalyzer._build_result` /
`AIAnalyzer._parse_response`.  Fields read verbatim from the parsed
response (the pass-through categories and the two list-valued profile
fields) are kept as `Json`; fields read with a string default are
`String` (non-string JSON values stored into them are outside the typed
fragment, marked `PyErr.typeMismatch`). -/

/-- The `CustomerProfile` dataclass. -/
structure CustomerProfile where
  company_name : String := ""
  industry : String := ""
  company_size : String := ""
  decision_maker_role : String := ""
  purchasing_authority : String := ""
  business_context : String := ""
  current_solutions : Json := jArr []
  budget_indicators : String := ""
  timeline_urgency : String := ""
  supporting_quotes : Json := jArr []

/-- The `PainPoint` dataclass. -/
structure PainPoint where
  category : String
  description : String
  direct_quote : String
  speaker : String
  impact_level : String
  context : String
  desired_outcome : String
  impact_statement : String
  deriving DecidableEq

/-- The `Question` dataclass. -/
structure Question where
  text : String
  speaker : String
  category : String
  underlying_concern : String
  context : String
  deriving DecidableEq

/-- The `Objection` dataclass. -/
structure Objection where
  objection_text : String
  direct_quote : String
  speaker : String
  emotional_undertone : String
  root_cause : String
  resolution_pathway : String
  conversion_trigger : String
  deriving DecidableEq

/-- The `LanguagePattern` dataclass (`usage_count` defaults to 1). -/
structure LanguagePattern where
  category : String
  phrase : String
  context : String
  speaker : String
  usage_count : Int := 1
  deriving DecidableEq

/-- Association-list lookup for the `top_pain_categories` dict. -/
def alistLookup {β : Type} : List (String × β) → String → Option β
  | [], _ => none
  | (k, v) :: rest, key => if k = key then some v else alistLookup rest key

/-- Association-list update with Python-dict semantics (overwrite in
place, else append). -/
def alistSet {β : Type} : List (String × β) → String → β → List (String × β)
  | [], k, v => [(k, v)]
  | (k0, v0) :: rest, k, v =>
      if k0 = k then (k0, v) :: rest else (k0, v0) :: alistSet rest k v

/-- The `AnalysisResult` dataclass.  The creation timestamp is the
rendered clock value, passed in explicitly; the two counts are list
lengths, so they are `Nat`. -/
structure AnalysisResult where
  timestamp : String
  meetings_analyzed : Nat := 0
  total_lead_statements : Nat := 0
  customer_profiles : List CustomerProfile := []
  pain_points : List PainPoint := []
  questions : List Question := []
  objections : List Objection := []
  language_patterns : List LanguagePattern := []
  top_pain_categories : List (String × Nat) := []
  common_questions : List String := []
  conversion_triggers : Json := jArr []
  value_propositions : Json := jArr []
  marketing_recommendations : Json := jArr []
  messaging_guidelines : Json := jArr []

/-- Read a string-typed record field: `element.get(key, default)` where
the surrounding code stores the result into a `str`-annotated field.  A
present non-string value is outside the typed fragment. -/
def jGetStrD (e : Json) (k : String) (dflt : String) : Except PyErr String :=
  match pyGet e k (jStr dflt) with
  | Except.error er => Except.error er
  | Except.ok (jStr s) => Except.ok s
  | Except.ok _ => Except.error PyErr.typeMismatch

/-- `CustomerProfile(...)` from one parsed element. -/
def mkCustomerProfile (cp : Json) : Except PyErr CustomerProfile := do
  let company_name ← jGetStrD cp "company_name" ""
  let industry ← jGetStrD cp "industry" ""
  let company_size ← jGetStrD cp "company_size" ""
  let decision_maker_role ← jGetStrD cp "decision_maker_role" ""
  let purchasing_authority ← jGetStrD cp "purchasing_authority" ""
  let business_context ← jGetStrD cp "business_context" ""
  let current_solutions ← pyGet cp "current_solutions" (jArr [])
  let budget_indicators ← jGetStrD cp "budget_indicators" ""
  let timeline_urgency ← jGetStrD cp "timeline_urgency" ""
  let supporting_quotes ← pyGet cp "supporting_quotes" (jArr [])
  pure { company_name, industry, company_size, decision_maker_role,
         purchasing_authority, business_context, current_solutions,
         budget_indicators, timeline_urgency, supporting_quotes }

/-- `PainPoint(...)` from one parsed element. -/
def mkPainPoint (pp : Json) : Except PyErr PainPoint := do
  let category ← jGetStrD pp "category" "Sonstiges"
  let description ← jGetStrD pp "description" ""
  let direct_quote ← jGetStrD pp "direct_quote" ""
  let speaker ← jGetStrD pp "speaker" ""
  let impact_level ← jGetStrD pp "impact_level" "Mittel"
  let context ← jGetStrD pp "context" ""
  let desired_outcome ← jGetStrD pp "desired_outcome" ""
  let impact_statement ← jGetStrD pp "impact_statement" ""
  pure { category, description, direct_quote, speaker, impact_level,
         context, desired_outcome, impact_statement }

/-- `Question(...)` from one parsed element. -/
def mkQuestion (q : Json) : Except PyErr Question := do
  let text ← jGetStrD q "text" ""
  let speaker ← jGetStrD q "speaker" ""
  let category ← jGetStrD q "category" "Allgemein"
  let underlying_concern ← jGetStrD q "underlying_concern" ""
  let context ← jGetStrD q "context" ""
  pure { text, speaker, category, underlying_concern, context }

/-- `Objection(...)` from one parsed element. -/
def mkObjection (ob : Json) : Except PyErr Objection := do
  let objection_text ← jGetStrD ob "objection_text" ""
  let direct_quote ← jGetStrD ob "direct_quote" ""
  let speaker ← jGetStrD ob "speaker" ""
  let emotional_undertone ← jGetStrD ob "emotional_undertone" ""
  let root_cause ← jGetStrD ob "root_cause" ""
  let resolution_pathway ← jGetStrD ob "resolution_pathway" ""
  let conversion_trigger ← jGetStrD ob "conversion_trigger" ""
  pure { objection_text, direct_quote, speaker, emotional_undertone,
         root_cause, resolution_pathway, conversion_trigger }

/-- `LanguagePattern(...)` from one parsed element; `usage_count` is
never passed, so it takes the dataclass default 1. -/
def mkLanguagePattern (lp : Json) : Except PyErr LanguagePattern := do
  let category ← jGetStrD lp "category" ""
  let phrase ← jGetStrD lp "phrase" ""
  let context ← jGetStrD lp "context" ""
  let speaker ← jGetStrD lp "speaker" ""
  pure { category, phrase, context, speaker }

/-- One record-category loop of `_build_result`:
`for x in analysis_data.get(key, []): result.<key>.append(Mk(...))`. -/
def buildCategory {α : Type} (analysis_data : Json) (key : String)
    (mk : Json → Except PyErr α) : Except PyErr (List α) := do
  let raw ← pyGet analysis_data key (jArr [])
  let items ← pyIter raw
  items.mapM mk

/-- The pain-point category counting loop of `_build_result`:
`result.top_pain_categories[cat] = result.top_pain_categories.get(cat, 0) + 1`. -/
def countPainCategories (pain_points : List PainPoint) : List (String × Nat) :=
  pain_points.foldl
    (fun d pp => alistSet d pp.category ((alistLookup d pp.category).getD 0 + 1)) []

/-- `AIAnalyzer._build_result`. -/
def build_result (ts : String) (analysis_data : Json) (meetings : List Meeting)
    (lead_statements : List Sentence) : Except PyErr AnalysisResult := do
  let customer_profiles ← buildCategory analysis_data "customer_profiles" mkCustomerProfile
  let pain_points ← buildCategory analysis_data "pain_points" mkPainPoint
  let questions ← buildCategory analysis_data "questions" mkQuestion
  let objections ← buildCategory analysis_data "objections" mkObjection
  let language_patterns ← buildCategory analysis_data "language_patterns" mkLanguagePattern
  let value_propositions ← pyGet analysis_data "value_propositions" (jArr [])
  let marketing_recommendations ← pyGet analysis_data "marketing_recommendations" (jArr [])
  let messaging_guidelines ← pyGet analysis_data "messaging_guidelines" (jArr [])
  let conversion_triggers ← pyGet analysis_data "conversion_triggers" (jArr [])
  pure { timestamp := ts,
         meetings_analyzed := meetings.length,
         total_lead_statements := lead_statements.length,
         customer_profiles, pain_points, questions, objections, language_patterns,
         top_pain_categories := countPainCategories pain_points,
         common_questions := (questions.take 10).map (fun q => q.text),
         conversion_triggers, value_propositions, marketing_recommendations,
         messaging_guidelines }

/-- Response ingestion: `_parse_response` followed by `_build_result`
(the slice of `analyze_meetings` after the provider call). -/
def ingest (ts : String) (response : String) (meetings : List Meeting)
    (lead_statements : List Sentence) : Except PyErr AnalysisResult :=
  build_result ts (parse_response response) meetings lead_statements

/-- `pure` on `Except` is `Except.ok`. -/
theorem exPure {α : Type} (x : α) : (pure x : Except PyErr α) = Except.ok x := rfl

/-- Bind on `Except` applied to a success. -/
theorem exBind_ok {α β : Type} (x : α) (f : α → Except PyErr β) :
    (Except.ok x >>= f) = f x := rfl

/-- Bind on `Except` applied to an error. -/
theorem exBind_err {α β : Type} (e : PyErr) (f : α → Except PyErr β) :
    ((Except.error e : Except PyErr α) >>= f) = Except.error e := rfl

/-- `pyGet` on a dict never raises. -/
theorem pyGet_obj (d : List (String × Json)) (k : String) (dflt : Json) :
    pyGet (jObj d) k dflt = Except.ok ((jlookup d k).getD dflt) := rfl

/-- A record category whose key is absent from the parsed dict yields
the empty list. -/
theorem buildCategory_absent {α : Type} (mk : Json → Except PyErr α)
    (d : List (String × Json)) (key : String) (h : jlookup d key = none) :
    buildCategory (jObj d) key mk = Except.ok [] := by
  simp only [buildCategory, pyGet_obj, h, Option.getD_none, exBind_ok, pyIter,
    List.mapM_nil, exPure]

/-- Composition of `build_result` from the outcomes of its nine reads. -/
theorem build_result_eq (ts : String) (dj : Json) (me : List Meeting)
    (le : List Sentence) (cps : List CustomerProfile) (pps : List PainPoint)
    (qs : List Question) (obs : List Objection) (lps : List LanguagePattern)
    (vps mrs mgs cts : Json)
    (h1 : buildCategory dj "customer_profiles" mkCustomerProfile = Except.ok cps)
    (h2 : buildCategory dj "pain_points" mkPainPoint = Except.ok pps)
    (h3 : buildCategory dj "questions" mkQuestion = Except.ok qs)
    (h4 : buildCategory dj "objections" mkObjection = Except.ok obs)
    (h5 : buildCategory dj "language_patterns" mkLanguagePattern = Except.ok lps)
    (h6 : pyGet dj "value_propositions" (jArr []) = Except.ok vps)
    (h7 : pyGet dj "marketing_recommendations" (jArr []) = Except.ok mrs)
    (h8 : pyGet dj "messaging_guidelines" (jArr []) = Except.ok mgs)
    (h9 : pyGet dj "conversion_triggers" (jArr []) = Except.ok cts) :
    build_result ts dj me le =
      Except.ok
        { timestamp := ts,
          meetings_analyzed := me.length,
          total_lead_statements := le.length,
          customer_profiles := cps, pain_points := pps, questions := qs,
          objections := obs, language_patterns := lps,
          top_pain_categories := countPainCategories pps,
          common_questions := (qs.take 10).map (fun q => q.text),
          conversion_triggers := cts, value_propositions := vps,
          marketing_recommendations := mrs, messaging_guidelines := mgs } := by
  unfold build_result
  rw [h1, exBind_ok, h2, exBind_ok, h3, exBind_ok, h4, exBind_ok, h5, exBind_ok,
    h6, exBind_ok, h7, exBind_ok, h8, exBind_ok, h9, exBind_ok, exPure]

/-- Inversion of a successful `build_result`: the nine reads succeeded
and the result is assembled from them, with the two aggregates computed
from the built record lists. -/
theorem build_result_ok_inv (ts : String) (dj : Json) (me : List Meeting)
    (le : List Sentence) (r : AnalysisResult)
    (h : build_result ts dj me le = Except.ok r) :
    ∃ cps pps qs obs lps vps mrs mgs cts,
      buildCategory dj "customer_profiles" mkCustomerProfile = Except.ok cps
      ∧ buildCategory dj "pain_points" mkPainPoint = Except.ok pps
      ∧ buildCategory dj "questions" mkQuestion = Except.ok qs
      ∧ buildCategory dj "objections" mkObjection = Except.ok obs
      ∧ buildCategory dj "language_patterns" mkLanguagePattern = Except.ok lps
      ∧ pyGet dj "value_propositions" (jArr []) = Except.ok vps
      ∧ pyGet dj "marketing_recommendations" (jArr []) = Except.ok mrs
      ∧ pyGet dj "messaging_guidelines" (jArr []) = Except.ok mgs
      ∧ pyGet dj "conversion_triggers" (jArr []) = Except.ok cts
      ∧ r = { timestamp := ts,
              meetings_analyzed := me.length,
              total_lead_statements := le.length,
              customer_profiles := cps, pain_points := pps, questions := qs,
              objections := obs, language_patterns := lps,
              top_pain_categories := countPainCategories pps,
              common_questions := (qs.take 10).map (fun q => q.text),
              conversion_triggers := cts, value_propositions := vps,
              marketing_recommendations := mrs, messaging_guidelines := mgs } := by
  unfold build_result at h
  cases hc1 : buildCategory dj "customer_profiles" mkCustomerProfile with
  | error e => rw [hc1, exBind_err] at h; exact Except.noConfusion h
  | ok cps =>
  rw [hc1, exBind_ok] at h
  cases hc2 : buildCategory dj "pain_points" mkPainPoint with
  | error e => rw [hc2, exBind_err] at h; exact Except.noConfusion h
  | ok pps =>
  rw [hc2, exBind_ok] at h
  cases hc3 : buildCategory dj "questions" mkQuestion with
  | error e => rw [hc3, exBind_err] at h; exact Except.noConfusion h
  | ok qs =>
  rw [hc3, exBind_ok] at h
  cases hc4 : buildCategory dj "objections" mkObjection with
  | error e => rw [hc4, exBind_err] at h; exact Except.noConfusion h
  | ok obs =>
  rw [hc4, exBind_ok] at h
  cases hc5 : buildCategory dj "language_patterns" mkLanguagePattern with
  | error e => rw [hc5, exBind_err] at h; exact Except.noConfusion h
  | ok lps =>
  rw [hc5, exBind_ok] at h
  cases hc6 : pyGet dj "value_propositions" (jArr []) with
  | error e => rw [hc6, exBind_err] at h; exact Except.noConfusion h
  | ok vps =>
  rw [hc6, exBind_ok] at h
  cases hc7 : pyGet dj "marketing_recommendations" (jArr []) with
  | error e => rw [hc7, exBind_err] at h; exact Except.noConfusion h
  | ok mrs =>
  rw [hc7, exBind_ok] at h
  cases hc8 : pyGet dj "messaging_guidelines" (jArr []) with
  | error e => rw [hc8, exBind_err] at h; exact Except.noConfusion h
  | ok mgs =>
  rw [hc8, exBind_ok] at h
  cases hc9 : pyGet dj "conversion_triggers" (jArr []) with
  | error e => rw [hc9, exBind_err] at h; exact Except.noConfusion h
  | ok cts =>
  rw [hc9, exBind_ok, exPure] at h
  exact ⟨cps, pps, qs, obs, lps, vps, mrs, mgs, cts, rfl, rfl, rfl, rfl, rfl,
    rfl, rfl, rfl, rfl, (Except.ok.inj h).symm⟩

/-- C3 fails on the code: the text `"5"` parses as JSON (the integer 5),
so extraction succeeds, and record construction then calls `.get` on a
non-dict value, raising `AttributeError` (uncaught: `_build_result` is
outside the `try` block of `analyze_meetings`). -/
theorem C3_counterexample :
    jsonLoads "5" = some (jNum 5)
    ∧ ingest "2026-01-01" "5" [] [] = Except.error PyErr.attributeError :=
  ⟨rfl, rfl⟩

/-- C3 amended: extraction itself never raises and tries the whole text,
then the greedy brace span; when both attempts fail the parsed value is
the empty object and ingestion returns, without raising, a result with
the caller-derived counts and every record list empty.  (When extraction
succeeds with a non-dict value, record construction can still raise.) -/
theorem C3_ingest_fallback (ts text : String) (meetings : List Meeting)
    (leads : List Sentence)
    (h1 : jsonLoads text = none)
    (h2 : ∀ sp, braceSpan text = some sp → jsonLoads sp = none) :
    parse_response text = jObj []
    ∧ ingest ts text meetings leads =
        Except.ok { timestamp := ts,
                    meetings_analyzed := meetings.length,
                    total_lead_statements := leads.length } := by
  have hpr : parse_response text = jObj [] := by
    unfold parse_response
    rw [h1]
    cases hb : braceSpan text with
    | none => rfl
    | some sp =>
        show (jsonLoads sp).getD (jObj []) = jObj []
        rw [h2 sp hb]
        rfl
  refine ⟨hpr, ?_⟩
  unfold ingest
  rw [hpr]
  have habs : ∀ {α : Type} (mk : Json → Except PyErr α) (key : String),
      buildCategory (jObj []) key mk = Except.ok [] :=
    fun mk key => buildCategory_absent mk [] key rfl
  rw [build_result_eq ts (jObj []) meetings leads [] [] [] [] []
    (jArr []) (jArr []) (jArr []) (jArr [])
    (habs _ _) (habs _ _) (habs _ _) (habs _ _) (habs _ _) rfl rfl rfl rfl]
  rfl

/-- Witness for the amended C3 at a concrete unparseable text. -/
theorem C3_ingest_fallback_witness :
    jsonLoads "not json at all" = none
    ∧ (parse_response "not json at all" = jObj []
        ∧ ingest "2026-01-01" "not json at all" [] [] =
            Except.ok { timestamp := "2026-01-01", meetings_analyzed := 0,
                        total_lead_statements := 0 }) :=
  ⟨rfl, C3_ingest_fallback "2026-01-01" "not json at all" [] []
    rfl (fun sp h => Option.noConfusion h)⟩

/-- C4 fails on the code: with the key `"pain_points"` present but bound
to a non-array value (the number 5), record construction iterates the
value and raises `TypeError` instead of treating the category as empty. -/
theorem C4_counterexample :
    jlookup [("pain_points", jNum 5)] "pain_points" = some (jNum 5)
    ∧ build_result "2026-01-01" (jObj [("pain_points", jNum 5)]) [] [] =
        Except.error PyErr.typeError :=
  ⟨rfl, rfl⟩

/-- C4 amended: a record-category key that is absent defaults to the
empty list and produces zero records without raising; the default does
not extend to present non-array values, which are iterated (raising
`TypeError` for numbers, booleans and `None`). -/
theorem C4_absent_category_defaults (ts : String) (d : List (String × Json))
    (meetings : List Meeting) (leads : List Sentence)
    (h1 : jlookup d "customer_profiles" = none)
    (h2 : jlookup d "pain_points" = none)
    (h3 : jlookup d "questions" = none)
    (h4 : jlookup d "objections" = none)
    (h5 : jlookup d "language_patterns" = none) :
    (build_result ts (jObj d) meetings leads).map
        (fun r => (r.customer_profiles, r.pain_points, r.questions,
          r.objections, r.language_patterns)) =
      Except.ok ([], [], [], [], []) := by
  rw [build_result_eq ts (jObj d) meetings leads [] [] [] [] []
    ((jlookup d "value_propositions").getD (jArr []))
    ((jlookup d "marketing_recommendations").getD (jArr []))
    ((jlookup d "messaging_guidelines").getD (jArr []))
    ((jlookup d "conversion_triggers").getD (jArr []))
    (buildCategory_absent _ d _ h1) (buildCategory_absent _ d _ h2)
    (buildCategory_absent _ d _ h3) (buildCategory_absent _ d _ h4)
    (buildCategory_absent _ d _ h5) (pyGet_obj d _ _) (pyGet_obj d _ _)
    (pyGet_obj d _ _) (pyGet_obj d _ _)]
  rfl

/-- Witness for the amended C4: a dict carrying only an unrelated key. -/
theorem C4_absent_category_defaults_witness :
    jlookup [("unrelated", jNull)] "customer_profiles" = none
    ∧ (build_result "2026-01-01" (jObj [("unrelated", jNull)]) [] []).map
        (fun r => (r.customer_profiles, r.pain_points, r.questions,
          r.objections, r.language_patterns)) =
      Except.ok ([], [], [], [], []) :=
  ⟨rfl, C4_absent_category_defaults "2026-01-01" [("unrelated", jNull)] [] []
    rfl rfl rfl rfl rfl⟩

/-- A string-typed record field is schema-conform when absent or bound
to a JSON string. -/
def strFieldOk (fs : List (String × Json)) (k : String) : Bool :=
  match jlookup fs k with
  | none => true
  | some (jStr _) => true
  | some _ => false

/-- Schema conformance of one `customer_profiles` element. -/
def schemaProfile : Json → Bool
  | jObj fs =>
      strFieldOk fs "company_name" && strFieldOk fs "industry"
        && strFieldOk fs "company_size" && strFieldOk fs "decision_maker_role"
        && strFieldOk fs "purchasing_authority" && strFieldOk fs "business_context"
        && strFieldOk fs "budget_indicators" && strFieldOk fs "timeline_urgency"
  | _ => false

/-- Schema conformance of one `pain_points` element. -/
def schemaPainPoint : Json → Bool
  | jObj fs =>
      strFieldOk fs "category" && strFieldOk fs "description"
        && strFieldOk fs "direct_quote" && strFieldOk fs "speaker"
        && strFieldOk fs "impact_level" && strFieldOk fs "context"
        && strFieldOk fs "desired_outcome" && strFieldOk fs "impact_statement"
  | _ => false

/-- Schema conformance of one `questions` element. -/
def schemaQuestion : Json → Bool
  | jObj fs =>
      strFieldOk fs "text" && strFieldOk fs "speaker" && strFieldOk fs "category"
        && strFieldOk fs "underlying_concern" && strFieldOk fs "context"
  | _ => false

/-- Schema conformance of one `objections` element. -/
def schemaObjection : Json → Bool
  | jObj fs =>
      strFieldOk fs "objection_text" && strFieldOk fs "direct_quote"
        && strFieldOk fs "speaker" && strFieldOk fs "emotional_undertone"
        && strFieldOk fs "root_cause" && strFieldOk fs "resolution_pathway"
        && strFieldOk fs "conversion_trigger"
  | _ => false

/-- Schema conformance of one `language_patterns` element. -/
def schemaLangPattern : Json → Bool
  | jObj fs =>
      strFieldOk fs "category" && strFieldOk fs "phrase"
        && strFieldOk fs "context" && strFieldOk fs "speaker"
  | _ => false

/-- A schema-conform string field read succeeds. -/
theorem jGetStrD_ok (fs : List (String × Json)) (k dflt : String)
    (h : strFieldOk fs k = true) :
    ∃ s, jGetStrD (jObj fs) k dflt = Except.ok s := by
  unfold strFieldOk at h
  cases hl : jlookup fs k with
  | none => exact ⟨dflt, by simp [jGetStrD, pyGet, hl]⟩
  | some v =>
      rw [hl] at h
      cases v with
      | jStr s => exact ⟨s, by simp [jGetStrD, pyGet, hl]⟩
      | jNull => exact absurd h (by simp)
      | jBool b => exact absurd h (by simp)
      | jNum n => exact absurd h (by simp)
      | jArr l => exact absurd h (by simp)
      | jObj f => exact absurd h (by simp)

/-- `mapM` over elements that all succeed yields a list of the same
length. -/
theorem mapM_ok_length {α : Type} (mk : Json → Except PyErr α) (l : List Json)
    (h : ∀ e ∈ l, ∃ a, mk e = Except.ok a) :
    ∃ l', l.mapM mk = Except.ok l' ∧ l'.length = l.length := by
  induction l with
  | nil => exact ⟨[], rfl, rfl⟩
  | cons e rest ih =>
      obtain ⟨a, ha⟩ := h e (List.mem_cons_self _ _)
      obtain ⟨l', hl', hlen⟩ := ih (fun x hx => h x (List.mem_cons_of_mem _ hx))
      refine ⟨a :: l', ?_, by simp [hlen]⟩
      rw [List.mapM_cons, ha, exBind_ok, hl', exBind_ok, exPure]

/-- A schema-conform `customer_profiles` element builds successfully. -/
theorem mkCustomerProfile_ok (e : Json) (h : schemaProfile e = true) :
    ∃ a, mkCustomerProfile e = Except.ok a := by
  cases e with
  | jObj fs =>
      simp only [schemaProfile, Bool.and_eq_true] at h
      obtain ⟨⟨⟨⟨⟨⟨⟨f1, f2⟩, f3⟩, f4⟩, f5⟩, f6⟩, f7⟩, f8⟩ := h
      obtain ⟨s1, h1⟩ := jGetStrD_ok fs "company_name" "" f1
      obtain ⟨s2, h2⟩ := jGetStrD_ok fs "industry" "" f2
      obtain ⟨s3, h3⟩ := jGetStrD_ok fs "company_size" "" f3
      obtain ⟨s4, h4⟩ := jGetStrD_ok fs "decision_maker_role" "" f4
      obtain ⟨s5, h5⟩ := jGetStrD_ok fs "purchasing_authority" "" f5
      obtain ⟨s6, h6⟩ := jGetStrD_ok fs "business_context" "" f6
      obtain ⟨s7, h7⟩ := jGetStrD_ok fs "budget_indicators" "" f7
      obtain ⟨s8, h8⟩ := jGetStrD_ok fs "timeline_urgency" "" f8
      have hdone : mkCustomerProfile (jObj fs) =
          Except.ok
            { company_name := s1, industry := s2, company_size := s3,
              decision_maker_role := s4, purchasing_authority := s5,
              business_context := s6,
              current_solutions := (jlookup fs "current_solutions").getD (jArr []),
              budget_indicators := s7, timeline_urgency := s8,
              supporting_quotes := (jlookup fs "supporting_quotes").getD (jArr []) } := by
        unfold mkCustomerProfile
        rw [h1, exBind_ok, h2, exBind_ok, h3, exBind_ok, h4, exBind_ok,
          h5, exBind_ok, h6, exBind_ok, pyGet_obj, exBind_ok, h7, exBind_ok,
          h8, exBind_ok, pyGet_obj, exBind_ok, exPure]
      exact ⟨_, hdone⟩
  | jNull => exact absurd h (by simp [schemaProfile])
  | jBool b => exact absurd h (by simp [schemaProfile])
  | jNum n => exact absurd h (by simp [schemaProfile])
  | jStr s => exact absurd h (by simp [schemaProfile])
  | jArr l => exact absurd h (by simp [schemaProfile])

/-- A schema-conform `pain_points` element builds successfully. -/
theorem mkPainPoint_ok (e : Json) (h : schemaPainPoint e = true) :
    ∃ a, mkPainPoint e = Except.ok a := by
  cases e with
  | jObj fs =>
      simp only [schemaPainPoint, Bool.and_eq_true] at h
      obtain ⟨⟨⟨⟨⟨⟨⟨f1, f2⟩, f3⟩, f4⟩, f5⟩, f6⟩, f7⟩, f8⟩ := h
      obtain ⟨s1, h1⟩ := jGetStrD_ok fs "category" "Sonstiges" f1
      obtain ⟨s2, h2⟩ := jGetStrD_ok fs "description" "" f2
      obtain ⟨s3, h3⟩ := jGetStrD_ok fs "direct_quote" "" f3
      obtain ⟨s4, h4⟩ := jGetStrD_ok fs "speaker" "" f4
      obtain ⟨s5, h5⟩ := jGetStrD_ok fs "impact_level" "Mittel" f5
      obtain ⟨s6, h6⟩ := jGetStrD_ok fs "context" "" f6
      obtain ⟨s7, h7⟩ := jGetStrD_ok fs "desired_outcome" "" f7
      obtain ⟨s8, h8⟩ := jGetStrD_ok fs "impact_statement" "" f8
      have hdone : mkPainPoint (jObj fs) =
          Except.ok
            { category := s1, description := s2, direct_quote := s3,
              speaker := s4, impact_level := s5, context := s6,
              desired_outcome := s7, impact_statement := s8 } := by
        unfold mkPainPoint
        rw [h1, exBind_ok, h2, exBind_ok, h3, exBind_ok, h4, exBind_ok,
          h5, exBind_ok, h6, exBind_ok, h7, exBind_ok, h8, exBind_ok, exPure]
      exact ⟨_, hdone⟩
  | jNull => exact absurd h (by simp [schemaPainPoint])
  | jBool b => exact absurd h (by simp [schemaPainPoint])
  | jNum n => exact absurd h (by simp [schemaPainPoint])
  | jStr s => exact absurd h (by simp [schemaPainPoint])
  | jArr l => exact absurd h (by simp [schemaPainPoint])

/-- A schema-conform `questions` element builds successfully. -/
theorem mkQuestion_ok (e : Json) (h : schemaQuestion e = true) :
    ∃ a, mkQuestion e = Except.ok a := by
  cases e with
  | jObj fs =>
      simp only [schemaQuestion, Bool.and_eq_true] at h
      obtain ⟨⟨⟨⟨f1, f2⟩, f3⟩, f4⟩, f5⟩ := h
      obtain ⟨s1, h1⟩ := jGetStrD_ok fs "text" "" f1
      obtain ⟨s2, h2⟩ := jGetStrD_ok fs "speaker" "" f2
      obtain ⟨s3, h3⟩ := jGetStrD_ok fs "category" "Allgemein" f3
      obtain ⟨s4, h4⟩ := jGetStrD_ok fs "underlying_concern" "" f4
      obtain ⟨s5, h5⟩ := jGetStrD_ok fs "context" "" f5
      have hdone : mkQuestion (jObj fs) =
          Except.ok
            { text := s1, speaker := s2, category := s3,
              underlying_concern := s4, context := s5 } := by
        unfold mkQuestion
        rw [h1, exBind_ok, h2, exBind_ok, h3, exBind_ok, h4, exBind_ok,
          h5, exBind_ok, exPure]
      exact ⟨_, hdone⟩
  | jNull => exact absurd h (by simp [schemaQuestion])
  | jBool b => exact absurd h (by simp [schemaQuestion])
  | jNum n => exact absurd h (by simp [schemaQuestion])
  | jStr s => exact absurd h (by simp [schemaQuestion])
  | jArr l => exact absurd h (by simp [schemaQuestion])

/-- A schema-conform `objections` element builds successfully. -/
theorem mkObjection_ok (e : Json) (h : schemaObjection e = true) :
    ∃ a, mkObjection e = Except.ok a := by
  cases e with
  | jObj fs =>
      simp only [schemaObjection, Bool.and_eq_true] at h
      obtain ⟨⟨⟨⟨⟨⟨f1, f2⟩, f3⟩, f4⟩, f5⟩, f6⟩, f7⟩ := h
      obtain ⟨s1, h1⟩ := jGetStrD_ok fs "objection_text" "" f1
      obtain ⟨s2, h2⟩ := jGetStrD_ok fs "direct_quote" "" f2
      obtain ⟨s3, h3⟩ := jGetStrD_ok fs "speaker" "" f3
      obtain ⟨s4, h4⟩ := jGetStrD_ok fs "emotional_undertone" "" f4
      obtain ⟨s5, h5⟩ := jGetStrD_ok fs "root_cause" "" f5
      obtain ⟨s6, h6⟩ := jGetStrD_ok fs "resolution_pathway" "" f6
      obtain ⟨s7, h7⟩ := jGetStrD_ok fs "conversion_trigger" "" f7
      have hdone : mkObjection (jObj fs) =
          Except.ok
            { objection_text := s1, direct_quote := s2, speaker := s3,
              emotional_undertone := s4, root_cause := s5,
              resolution_pathway := s6, conversion_trigger := s7 } := by
        unfold mkObjection
        rw [h1, exBind_ok, h2, exBind_ok, h3, exBind_ok, h4, exBind_ok,
          h5, exBind_ok, h6, exBind_ok, h7, exBind_ok, exPure]
      exact ⟨_, hdone⟩
  | jNull => exact absurd h (by simp [schemaObjection])
  | jBool b => exact absurd h (by simp [schemaObjection])
  | jNum n => exact absurd h (by simp [schemaObjection])
  | jStr s => exact absurd h (by simp [schemaObjection])
  | jArr l => exact absurd h (by simp [schemaObjection])

/-- A schema-conform `language_patterns` element builds successfully. -/
theorem mkLanguagePattern_ok (e : Json) (h : schemaLangPattern e = true) :
    ∃ a, mkLanguagePattern e = Except.ok a := by
  cases e with
  | jObj fs =>
      simp only [schemaLangPattern, Bool.and_eq_true] at h
      obtain ⟨⟨⟨f1, f2⟩, f3⟩, f4⟩ := h
      obtain ⟨s1, h1⟩ := jGetStrD_ok fs "category" "" f1
      obtain ⟨s2, h2⟩ := jGetStrD_ok fs "phrase" "" f2
      obtain ⟨s3, h3⟩ := jGetStrD_ok fs "context" "" f3
      obtain ⟨s4, h4⟩ := jGetStrD_ok fs "speaker" "" f4
      have hdone : mkLanguagePattern (jObj fs) =
          Except.ok
            { category := s1, phrase := s2, context := s3, speaker := s4 } := by
        unfold mkLanguagePattern
        rw [h1, exBind_ok, h2, exBind_ok, h3, exBind_ok, h4, exBind_ok, exPure]
      exact ⟨_, hdone⟩
  | jNull => exact absurd h (by simp [schemaLangPattern])
  | jBool b => exact absurd h (by simp [schemaLangPattern])
  | jNum n => exact absurd h (by simp [schemaLangPattern])
  | jStr s => exact absurd h (by simp [schemaLangPattern])
  | jArr l => exact absurd h (by simp [schemaLangPattern])

/-- A category present as an array of schema-conform elements builds a
list of the same length. -/
theorem buildCategory_ok_of_schema {α : Type} (mk : Json → Except PyErr α)
    (schemaF : Json → Bool) (l : List Json) (d : List (String × Json))
    (key : String)
    (hk : jlookup d key = some (jArr l)) (hall : l.all schemaF = true)
    (hmk : ∀ e, schemaF e = true → ∃ a, mk e = Except.ok a) :
    ∃ l', buildCategory (jObj d) key mk = Except.ok l' ∧ l'.length = l.length := by
  obtain ⟨l', h1, h2⟩ :=
    mapM_ok_length mk l (fun e he => hmk e (by
      rw [List.all_eq_true] at hall
      exact hall e he))
  refine ⟨l', ?_, h2⟩
  simp only [buildCategory, pyGet_obj, hk, Option.getD_some, exBind_ok, pyIter, h1]

/-- C5: for a text whose extraction (whole-text or brace-span) yields a
schema-conform JSON object, ingestion succeeds and each record category
has exactly as many records as the corresponding input array has
elements. -/
theorem C5_round_trip (ts text : String) (d : List (String × Json))
    (me : List Meeting) (le : List Sentence) (cps pps qs obs lps : List Json)
    (hparse : parse_response text = jObj d)
    (hk1 : jlookup d "customer_profiles" = some (jArr cps))
    (ha1 : cps.all schemaProfile = true)
    (hk2 : jlookup d "pain_points" = some (jArr pps))
    (ha2 : pps.all schemaPainPoint = true)
    (hk3 : jlookup d "questions" = some (jArr qs))
    (ha3 : qs.all schemaQuestion = true)
    (hk4 : jlookup d "objections" = some (jArr obs))
    (ha4 : obs.all schemaObjection = true)
    (hk5 : jlookup d "language_patterns" = some (jArr lps))
    (ha5 : lps.all schemaLangPattern = true) :
    (ingest ts text me le).map
        (fun r => (r.customer_profiles.length, r.pain_points.length,
          r.questions.length, r.objections.length, r.language_patterns.length)) =
      Except.ok (cps.length, pps.length, qs.length, obs.length, lps.length) := by
  obtain ⟨cps', hc1, hl1⟩ :=
    buildCategory_ok_of_schema mkCustomerProfile schemaProfile cps d
      "customer_profiles" hk1 ha1 mkCustomerProfile_ok
  obtain ⟨pps', hc2, hl2⟩ :=
    buildCategory_ok_of_schema mkPainPoint schemaPainPoint pps d
      "pain_points" hk2 ha2 mkPainPoint_ok
  obtain ⟨qs', hc3, hl3⟩ :=
    buildCategory_ok_of_schema mkQuestion schemaQuestion qs d
      "questions" hk3 ha3 mkQuestion_ok
  obtain ⟨obs', hc4, hl4⟩ :=
    buildCategory_ok_of_schema mkObjection schemaObjection obs d
      "objections" hk4 ha4 mkObjection_ok
  obtain ⟨lps', hc5, hl5⟩ :=
    buildCategory_ok_of_schema mkLanguagePattern schemaLangPattern lps d
      "language_patterns" hk5 ha5 mkLanguagePattern_ok
  unfold ingest
  rw [hparse, build_result_eq ts (jObj d) me le cps' pps' qs' obs' lps'
    ((jlookup d "value_propositions").getD (jArr []))
    ((jlookup d "marketing_recommendations").getD (jArr []))
    ((jlookup d "messaging_guidelines").getD (jArr []))
    ((jlookup d "conversion_triggers").getD (jArr []))
    hc1 hc2 hc3 hc4 hc5 (pyGet_obj d _ _) (pyGet_obj d _ _)
    (pyGet_obj d _ _) (pyGet_obj d _ _)]
  simp only [Except.map, hl1, hl2, hl3, hl4, hl5]

/-- The concrete schema-conform response text for the C5 witness: the
JSON object sits inside surrounding prose, so extraction goes through
the greedy brace span. -/
def c5Text : String :=
  "Hier ist die Analyse: " ++
    "\x7b\"customer_profiles\": [], \"pain_points\": [\x7b\x7d, \x7b\x7d], " ++
    "\"questions\": [\x7b\x7d], \"objections\": [], \"language_patterns\": []\x7d" ++
    " Ende der Analyse."

/-- The parsed dict of `c5Text`. -/
def c5Dict : List (String × Json) :=
  [("customer_profiles", jArr []), ("pain_points", jArr [jObj [], jObj []]),
   ("questions", jArr [jObj []]), ("objections", jArr []),
   ("language_patterns", jArr [])]

set_option maxRecDepth 16384 in
/-- Witness for C5 at a concrete schema-conform response. -/
theorem C5_round_trip_witness :
    parse_response c5Text = jObj c5Dict
    ∧ (ingest "2026-01-01" c5Text [] []).map
        (fun r => (r.customer_profiles.length, r.pain_points.length,
          r.questions.length, r.objections.length, r.language_patterns.length)) =
      Except.ok (0, 2, 1, 0, 0) :=
  ⟨rfl, C5_round_trip "2026-01-01" c5Text c5Dict [] []
    [] [jObj [], jObj []] [jObj []] [] []
    rfl rfl rfl rfl rfl rfl rfl rfl rfl rfl rfl⟩

/-- Looking up the key just set returns the new value. -/
theorem alistLookup_set_self {β : Type} (d : List (String × β)) (k : String) (v : β) :
    alistLookup (alistSet d k v) k = some v := by
  induction d with
  | nil => simp [alistSet, alistLookup]
  | cons p rest ih =>
      obtain ⟨k0, v0⟩ := p
      by_cases h : k0 = k
      · simp [alistSet, h, alistLookup]
      · simp [alistSet, h, alistLookup, ih]

/-- Setting one key leaves lookups of other keys unchanged. -/
theorem alistLookup_set_other {β : Type} (d : List (String × β)) (k c : String)
    (v : β) (h : c ≠ k) :
    alistLookup (alistSet d k v) c = alistLookup d c := by
  have hkc : ¬ (k = c) := fun hh => h hh.symm
  induction d with
  | nil => simp only [alistSet, alistLookup, if_neg hkc]
  | cons p rest ih =>
      obtain ⟨k0, v0⟩ := p
      by_cases h0 : k0 = k
      · have hk0c : ¬ (k0 = c) := by rw [h0]; exact hkc
        simp only [alistSet, if_pos h0, alistLookup, if_neg hk0c]
      · simp only [alistSet, if_neg h0, alistLookup]
        by_cases hc : k0 = c
        · rw [if_pos hc, if_pos hc]
        · rw [if_neg hc, if_neg hc, ih]

/-- Invariant of the pain-point counting loop: the final count of a
category is its count in the accumulator plus its number of occurrences
in the remaining list. -/
theorem countPain_go (pps : List PainPoint) (acc : List (String × Nat)) (c : String) :
    alistLookup
        (pps.foldl
          (fun d pp => alistSet d pp.category ((alistLookup d pp.category).getD 0 + 1))
          acc) c =
      match alistLookup acc c with
      | some k => some (k + (pps.filter (fun pp => pp.category == c)).length)
      | none =>
          if 0 < (pps.filter (fun pp => pp.category == c)).length
          then some ((pps.filter (fun pp => pp.category == c)).length) else none := by
  induction pps generalizing acc with
  | nil =>
      simp only [List.foldl_nil, List.filter_nil, List.length_nil]
      cases alistLookup acc c <;> simp
  | cons pp rest ih =>
      rw [List.foldl_cons, ih]
      by_cases hc : pp.category = c
      · have hsetl :
            alistLookup
              (alistSet acc pp.category ((alistLookup acc pp.category).getD 0 + 1)) c =
              some ((alistLookup acc c).getD 0 + 1) := by
          rw [hc]
          exact alistLookup_set_self acc c _
        have hfil : (pp :: rest).filter (fun pp => pp.category == c) =
            pp :: rest.filter (fun pp => pp.category == c) := by
          simp [List.filter_cons, hc]
        rw [hsetl, hfil, List.length_cons]
        cases halc : alistLookup acc c with
        | some k =>
            simp only [Option.getD_some]
            simp
            omega
        | none =>
            simp only [Option.getD_none]
            simp
            omega
      · have hne : c ≠ pp.category := fun hh => hc hh.symm
        rw [alistLookup_set_other acc pp.category c _ hne]
        have hfil : (pp :: rest).filter (fun pp => pp.category == c) =
            rest.filter (fun pp => pp.category == c) := by
          simp [List.filter_cons, hc]
        rw [hfil]

/-- The count dict built by `_build_result` maps a category to its
occurrence count among the pain points, and to nothing when the
category does not occur. -/
theorem countPainCategories_lookup (pps : List PainPoint) (c : String) :
    alistLookup (countPainCategories pps) c =
      (if 0 < (pps.filter (fun pp => pp.category == c)).length
       then some ((pps.filter (fun pp => pp.category == c)).length) else none) := by
  unfold countPainCategories
  rw [countPain_go]
  rfl

/-- C6: after a successful build, `top_pain_categories` maps exactly the
categories occurring among the pain points to their occurrence counts
(no other keys), and `common_questions` is the text of the first 10
question records in list order. -/
theorem C6_aggregation (ts : String) (dj : Json) (me : List Meeting)
    (le : List Sentence) (r : AnalysisResult) (c : String)
    (h : build_result ts dj me le = Except.ok r) :
    alistLookup r.top_pain_categories c =
      (if 0 < (r.pain_points.filter (fun pp => pp.category == c)).length
       then some ((r.pain_points.filter (fun pp => pp.category == c)).length)
       else none)
    ∧ r.common_questions = (r.questions.take 10).map (fun q => q.text) := by
  obtain ⟨cps, pps, qs, obs, lps, vps, mrs, mgs, cts,
    _, _, _, _, _, _, _, _, _, hr⟩ := build_result_ok_inv ts dj me le r h
  subst hr
  exact ⟨countPainCategories_lookup pps c, rfl⟩

/-- Parsed input dict for the C6 witness (the §8 aggregation test:
three pain points with categories Technical, Technical, Cost). -/
def c6Dict : List (String × Json) :=
  [("pain_points",
    jArr [jObj [("category", jStr "Technical")],
          jObj [("category", jStr "Technical")],
          jObj [("category", jStr "Cost")]])]

/-- A pain point with the given category and all other fields at their
read defaults. -/
def ppOf (c : String) : PainPoint :=
  { category := c, description := "", direct_quote := "", speaker := "",
    impact_level := "Mittel", context := "", desired_outcome := "",
    impact_statement := "" }

/-- The analysis result built from `c6Dict`. -/
def c6Result : AnalysisResult :=
  { timestamp := "2026-01-01",
    pain_points := [ppOf "Technical", ppOf "Technical", ppOf "Cost"],
    top_pain_categories := [("Technical", 2), ("Cost", 1)] }

/-- Witness for C6 at the concrete §8 aggregation example. -/
theorem C6_aggregation_witness :
    build_result "2026-01-01" (jObj c6Dict) [] [] = Except.ok c6Result
    ∧ (alistLookup c6Result.top_pain_categories "Technical" =
        (if 0 < (c6Result.pain_points.filter
              (fun pp => pp.category == "Technical")).length
         then some ((c6Result.pain_points.filter
              (fun pp => pp.category == "Technical")).length)
         else none)
       ∧ c6Result.common_questions =
          (c6Result.questions.take 10).map (fun q => q.text)) :=
  ⟨rfl, C6_aggregation "2026-01-01" (jObj c6Dict) [] [] c6Result "Technical" rfl⟩

/-- C7 fails on the code: a `language_patterns` element that omits the
`category` key produces a pattern whose category is the default `""`,
which is not in the documented four-element set (the `usage_count ≥ 1`
half does hold). -/
theorem C7_counterexample :
    (build_result "2026-01-01" (jObj [("language_patterns", jArr [jObj []])])
        [] []).map (fun r => r.language_patterns) =
      Except.ok [{ category := "", phrase := "", context := "", speaker := "" }]
    ∧ ¬ ("" ∈ ["industry_term", "emotional", "power_word", "metaphor"]) :=
  ⟨rfl, by decide⟩

/-- Inversion of a successful category build: the key read and the
iteration succeeded and every record comes from `mapM`. -/
theorem buildCategory_ok_inv {α : Type} (mk : Json → Except PyErr α)
    (dj : Json) (key : String) (l' : List α)
    (h : buildCategory dj key mk = Except.ok l') :
    ∃ raw items, pyGet dj key (jArr []) = Except.ok raw
      ∧ pyIter raw = Except.ok items ∧ items.mapM mk = Except.ok l' := by
  unfold buildCategory at h
  cases hg : pyGet dj key (jArr []) with
  | error e => rw [hg, exBind_err] at h; exact Except.noConfusion h
  | ok raw =>
  rw [hg, exBind_ok] at h
  cases hi : pyIter raw with
  | error e => rw [hi, exBind_err] at h; exact Except.noConfusion h
  | ok items =>
  rw [hi, exBind_ok] at h
  exact ⟨raw, items, rfl, hi, h⟩

/-- Every element of a successful `mapM` output comes from a successful
application of the builder to some input element. -/
theorem mapM_mem_inv {α : Type} (mk : Json → Except PyErr α) (l : List Json)
    (l' : List α) (a : α) (h : l.mapM mk = Except.ok l') (ha : a ∈ l') :
    ∃ e ∈ l, mk e = Except.ok a := by
  induction l generalizing l' with
  | nil =>
      have : l' = [] := (Except.ok.inj h).symm
      subst this
      exact absurd ha (List.not_mem_nil a)
  | cons e rest ih =>
      rw [List.mapM_cons] at h
      cases hmk : mk e with
      | error er => rw [hmk, exBind_err] at h; exact Except.noConfusion h
      | ok b =>
      rw [hmk, exBind_ok] at h
      cases hrest : rest.mapM mk with
      | error er => rw [hrest, exBind_err] at h; exact Except.noConfusion h
      | ok bs =>
      rw [hrest, exBind_ok, exPure] at h
      have hbb : b :: bs = l' := Except.ok.inj h
      subst hbb
      rcases List.mem_cons.mp ha with rfl | hmem
      · exact ⟨e, List.mem_cons_self _ _, hmk⟩
      · obtain ⟨e', he', hmk'⟩ := ih bs hrest hmem
        exact ⟨e', List.mem_cons_of_mem _ he', hmk'⟩

/-- Any successfully built language pattern has `usage_count = 1` (the
dataclass default; the constructor call never passes it). -/
theorem mkLanguagePattern_usage (e : Json) (a : LanguagePattern)
    (h : mkLanguagePattern e = Except.ok a) : a.usage_count = 1 := by
  unfold mkLanguagePattern at h
  cases h1 : jGetStrD e "category" "" with
  | error er => rw [h1, exBind_err] at h; exact Except.noConfusion h
  | ok s1 =>
  rw [h1, exBind_ok] at h
  cases h2 : jGetStrD e "phrase" "" with
  | error er => rw [h2, exBind_err] at h; exact Except.noConfusion h
  | ok s2 =>
  rw [h2, exBind_ok] at h
  cases h3 : jGetStrD e "context" "" with
  | error er => rw [h3, exBind_err] at h; exact Except.noConfusion h
  | ok s3 =>
  rw [h3, exBind_ok] at h
  cases h4 : jGetStrD e "speaker" "" with
  | error er => rw [h4, exBind_err] at h; exact Except.noConfusion h
  | ok s4 =>
  rw [h4, exBind_ok, exPure] at h
  have := Except.ok.inj h
  rw [← this]

/-- C7 amended: every language pattern produced by a successful build
has `usage_count` exactly 1 (so at least 1); the category field is the
element's `category` value with default `""` and is not constrained to
the documented four-element set. -/
theorem C7_usage_count (ts : String) (dj : Json) (me : List Meeting)
    (le : List Sentence) (r : AnalysisResult) (lp : LanguagePattern)
    (h : build_result ts dj me le = Except.ok r)
    (hlp : lp ∈ r.language_patterns) :
    lp.usage_count = 1 ∧ 1 ≤ lp.usage_count := by
  obtain ⟨cps, pps, qs, obs, lps, vps, mrs, mgs, cts,
    _, _, _, _, hc5, _, _, _, _, hr⟩ := build_result_ok_inv ts dj me le r h
  subst hr
  obtain ⟨raw, items, _, _, hmapm⟩ :=
    buildCategory_ok_inv mkLanguagePattern dj "language_patterns" lps hc5
  obtain ⟨e, _, hmk⟩ := mapM_mem_inv mkLanguagePattern items lps lp hmapm hlp
  have h1 := mkLanguagePattern_usage e lp hmk
  exact ⟨h1, by omega⟩

/-- The language pattern of the C7 witness. -/
def lpC7 : LanguagePattern :=
  { category := "metaphor", phrase := "", context := "", speaker := "" }

/-- The parsed dict of the C7 witness. -/
def c7Dict : Json :=
  jObj [("language_patterns", jArr [jObj [("category", jStr "metaphor")]])]

/-- The analysis result built from `c7Dict`. -/
def c7Result : AnalysisResult :=
  { timestamp := "2026-01-01", language_patterns := [lpC7] }

/-- Witness for the amended C7 at a concrete response dict. -/
theorem C7_usage_count_witness :
    build_result "2026-01-01" c7Dict [] [] = Except.ok c7Result
    ∧ lpC7 ∈ c7Result.language_patterns
    ∧ (lpC7.usage_count = 1 ∧ 1 ≤ lpC7.usage_count) :=
  ⟨rfl, List.mem_singleton.mpr rfl,
    C7_usage_count "2026-01-01" c7Dict [] [] c7Result lpC7 rfl
      (List.mem_singleton.mpr rfl)⟩

/-! ## Prompt formatting (`AIAnalyzer._format_statements`) -/

/-- The per-statement prompt line `[speaker_name]: text`. -/
def stmtLine (stmt : Sentence) : String :=
  "[" ++ stmt.speaker_name ++ "]: " ++ stmt.text

/-- The accumulation loop of `_format_statements`: keep statement lines
while the running total of line lengths stays within the budget; stop at
the first line that would exceed it. -/
def fmtLoop : List Sentence → Nat → Nat → List String
  | [], _, _ => []
  | stmt :: rest, total, maxc =>
      if total + (stmtLine stmt).length > maxc then []
      else stmtLine stmt :: fmtLoop rest (total + (stmtLine stmt).length) maxc

/-- Python's `sep.join(lines)`. -/
def pyJoin (sep : String) : List String → String
  | [] => ""
  | [x] => x
  | x :: rest => x ++ sep ++ pyJoin sep rest

/-- `AIAnalyzer._format_statements` (default budget 50000 characters). -/
def format_statements (statements : List Sentence) (max_chars : Nat := 50000) :
    String :=
  pyJoin "\n" (fmtLoop statements 0 max_chars)

/-- Length of a join: the line lengths plus one separator between
consecutive lines. -/
theorem pyJoin_length (sep : String) (ls : List String) :
    (pyJoin sep ls).length =
      (ls.map String.length).sum + sep.length * (ls.length - 1) := by
  induction ls with
  | nil => simp [pyJoin]
  | cons x rest ih =>
      cases rest with
      | nil => simp [pyJoin]
      | cons y t =>
          show (x ++ sep ++ pyJoin sep (y :: t)).length = _
          rw [String.length_append, String.length_append, ih]
          simp [List.map_cons, List.sum_cons]
          ring

/-- The truncation loop keeps a prefix of the statements, and the total
of the kept line lengths stays within the budget (or nothing is kept). -/
theorem fmtLoop_spec (statements : List Sentence) (total maxc : Nat) :
    ∃ k, fmtLoop statements total maxc = (statements.take k).map stmtLine
      ∧ (k = 0 ∨
          total + (((statements.take k).map stmtLine).map String.length).sum ≤ maxc) := by
  induction statements generalizing total with
  | nil => exact ⟨0, rfl, Or.inl rfl⟩
  | cons s rest ih =>
      by_cases h : total + (stmtLine s).length > maxc
      · refine ⟨0, ?_, Or.inl rfl⟩
        simp [fmtLoop, h]
      · obtain ⟨k, hk, hbound⟩ := ih (total + (stmtLine s).length)
        refine ⟨k + 1, ?_, Or.inr ?_⟩
        · simp [fmtLoop, h, List.take_succ_cons, hk]
        · rcases hbound with h0 | hle
          · subst h0
            simp only [List.take_succ_cons, List.take_zero, List.map_cons,
              List.map_nil, List.sum_cons, List.sum_nil]
            omega
          · simp only [List.take_succ_cons, List.map_cons, List.sum_cons]
            omega

/-- C9 amended: the embedded lead-statements string is the newline-join
of the statement lines of a prefix of the statements (drops happen only
at the end); the budget bounds the sum of the line lengths, and the
joined string exceeds it only by the separators (one character between
consecutive kept lines). -/
theorem C9_truncation_amended (statements : List Sentence) :
    ∃ k,
      fmtLoop statements 0 50000 = (statements.take k).map stmtLine
      ∧ (((statements.take k).map stmtLine).map String.length).sum ≤ 50000
      ∧ (format_statements statements).length
          ≤ 50000 + (((statements.take k).map stmtLine).length - 1) := by
  obtain ⟨k, hk, hbound⟩ := fmtLoop_spec statements 0 50000
  have hsum : (((statements.take k).map stmtLine).map String.length).sum ≤ 50000 := by
    rcases hbound with h0 | hle
    · subst h0; simp
    · omega
  refine ⟨k, hk, hsum, ?_⟩
  unfold format_statements
  rw [hk, pyJoin_length]
  have hsep : ("\n" : String).length = 1 := rfl
  rw [hsep]
  omega

/-- A 24996-character text, giving a 25000-character prompt line. -/
def c9Text : String := String.mk (List.replicate 24996 'a')

/-- A lead statement whose prompt line is exactly 25000 characters. -/
def c9Stmt : Sentence :=
  { index := 0, text := c9Text, speaker_id := "s", speaker_name := "",
    start_time := 0, end_time := 0 }

/-- The prompt line of `c9Stmt` is 25000 characters long. -/
theorem c9Stmt_line_len : (stmtLine c9Stmt).length = 25000 := by
  unfold stmtLine
  rw [String.length_append, String.length_append, String.length_append]
  have h1 : c9Stmt.text.length = 24996 := by
    show (List.replicate 24996 'a').length = 24996
    exact List.length_replicate 24996 'a'
  rw [h1]
  rfl

/-- C9 fails on the code: two statements whose lines are each exactly
25000 characters pass the budget check (the running total counts only
line lengths), yet the embedded string is 50001 characters long because
`"\n".join` adds a separator the budget does not account for. -/
theorem C9_counterexample :
    (format_statements [c9Stmt, c9Stmt]).length = 50001 := by
  have hl := c9Stmt_line_len
  have hloop : fmtLoop [c9Stmt, c9Stmt] 0 50000 = [stmtLine c9Stmt, stmtLine c9Stmt] := by
    simp only [fmtLoop, hl]
    norm_num
  unfold format_statements
  rw [hloop]
  show (stmtLine c9Stmt ++ "\n" ++ stmtLine c9Stmt).length = 50001
  rw [String.length_append, String.length_append, hl]
  rfl

/-! ## Transcript parsing (`FirefliesClient._parse_transcript`)

The detail query (`TRANSCRIPT_DETAIL_QUERY`) fetches no host flag, and
the parser never passes `is_host`, so every parsed speaker carries the
dataclass default `False`.  String-, integer- and string-list-typed
reads require the GraphQL-schema-typed shapes (anything else is
`PyErr.typeMismatch`, outside the typed fragment). -/

/-- Read an optional string field: `d.get(key)` stored into an
`Optional[str]` slot (`None` and absent both give `none`). -/
def jGetOptStr (e : Json) (k : String) : Except PyErr (Option String) :=
  match pyGet e k jNull with
  | Except.error er => Except.error er
  | Except.ok jNull => Except.ok none
  | Except.ok (jStr s) => Except.ok (some s)
  | Except.ok _ => Except.error PyErr.typeMismatch

/-- Read an integer-typed field with a default. -/
def jGetIntD (e : Json) (k : String) (dflt : Int) : Except PyErr Int :=
  match pyGet e k (jNum dflt) with
  | Except.error er => Except.error er
  | Except.ok (jNum n) => Except.ok n
  | Except.ok _ => Except.error PyErr.typeMismatch

/-- Extract a list of strings from parsed JSON array elements. -/
def strListOfJson : List Json → Except PyErr (List String)
  | [] => Except.ok []
  | jStr s :: rest => (strListOfJson rest).map (fun l => s :: l)
  | _ :: _ => Except.error PyErr.typeMismatch

/-- `d.get(key, []) or []` stored into a `List[str]` slot: a falsy value
gives `[]`, a truthy value must be an array of strings. -/
def jGetStrListOr (e : Json) (k : String) : Except PyErr (List String) :=
  match pyGet e k (jArr []) with
  | Except.error er => Except.error er
  | Except.ok v =>
      if pyTruthy v then
        match v with
        | jArr items => strListOfJson items
        | _ => Except.error PyErr.typeMismatch
      else Except.ok []

/-- `Speaker(...)` from one element of the `speakers` array; `is_host`
is never passed and takes the dataclass default `False`. -/
def mkSpeakerFromApi (sp : Json) : Except PyErr Speaker := do
  let id ← jGetStrD sp "id" ""
  let name ← jGetStrD sp "name" "Unknown"
  let email ← jGetOptStr sp "email"
  let duration ← jGetIntD sp "duration" 0
  let word_count ← jGetIntD sp "word_count" 0
  pure { id, name, email, duration, word_count }

/-- `Sentence(...)` from one element of the `sentences` array. -/
def mkSentenceFromApi (sent : Json) : Except PyErr Sentence := do
  let index ← jGetIntD sent "index" 0
  let text ← jGetStrD sent "text" ""
  let speaker_id ← jGetStrD sent "speaker_id" ""
  let speaker_name ← jGetStrD sent "speaker_name" "Unknown"
  let start_time ← jGetIntD sent "start_time" 0
  let end_time ← jGetIntD sent "end_time" 0
  let raw_text ← jGetOptStr sent "raw_text"
  pure { index, text, speaker_id, speaker_name, start_time, end_time, raw_text }

/-- The date branch of `_parse_transcript`: numbers (Python `bool` is an
`int` subtype) become epoch milliseconds, strings are ISO-parsed, and
anything else falls back to the current time. -/
def dateOfJson : Json → MeetingDate
  | jNum n => MeetingDate.fromMillis n
  | jBool b => MeetingDate.fromMillis (if b then 1 else 0)
  | jStr s => MeetingDate.fromIso s
  | _ => MeetingDate.now

/-- `FirefliesClient._parse_transcript`. -/
def parse_transcript (data : Json) : Except PyErr Meeting := do
  let speakersRaw ← pyGet data "speakers" (jArr [])
  let speakerItems ← pyIter speakersRaw
  let speakers ← speakerItems.mapM mkSpeakerFromApi
  let sentencesRaw ← pyGet data "sentences" (jArr [])
  let sentenceItems ← pyIter sentencesRaw
  let sentences ← sentenceItems.mapM mkSentenceFromApi
  let summaryRaw ← pyGet data "summary" (jObj [])
  let summary_data := if pyTruthy summaryRaw then summaryRaw else jObj []
  let aiRaw ← pyGet data "ai_filters" (jObj [])
  let ai_filters := if pyTruthy aiRaw then aiRaw else jObj []
  let questionsRaw ← pyGet ai_filters "questions" (jArr [])
  let questions_data := if pyTruthy questionsRaw then questionsRaw else jArr []
  let keywords ← jGetStrListOr summary_data "keywords"
  let action_items ← jGetStrListOr summary_data "action_items"
  let outline ← jGetStrListOr summary_data "outline"
  let meeting_type ← jGetOptStr summary_data "meeting_type"
  let qItems ← pyIter questions_data
  let questions ← qItems.mapM (fun q => jGetStrD q "text" "")
  let dateV ← pyGet data "date" jNull
  let date := dateOfJson dateV
  let id ← jGetStrD data "id" ""
  let title ← jGetStrD data "title" "Untitled Meeting"
  let duration ← jGetIntD data "duration" 0
  let host_email ← jGetOptStr data "host_email"
  let organizer_email ← jGetOptStr data "organizer_email"
  let transcript_url ← jGetOptStr data "transcript_url"
  let participants ← jGetStrListOr data "participants"
  pure { id, title, date, duration, host_email, organizer_email,
         speakers, sentences,
         summary := { keywords, action_items, outline, meeting_type, questions },
         transcript_url, participants }

/-- Inversion of a bind that succeeded. -/
theorem exBind_ok_inv {α β : Type} (x : Except PyErr α) (f : α → Except PyErr β)
    (b : β) (h : (x >>= f) = Except.ok b) :
    ∃ a, x = Except.ok a ∧ f a = Except.ok b := by
  cases x with
  | error e => rw [exBind_err] at h; exact Except.noConfusion h
  | ok a =>
      rw [exBind_ok] at h
      exact ⟨a, rfl, h⟩

/-- A successfully built speaker has the host flag unset. -/
theorem mkSpeakerFromApi_no_host (e : Json) (sp : Speaker)
    (h : mkSpeakerFromApi e = Except.ok sp) : sp.is_host = false := by
  unfold mkSpeakerFromApi at h
  obtain ⟨a1, _, h⟩ := exBind_ok_inv _ _ _ h
  obtain ⟨a2, _, h⟩ := exBind_ok_inv _ _ _ h
  obtain ⟨a3, _, h⟩ := exBind_ok_inv _ _ _ h
  obtain ⟨a4, _, h⟩ := exBind_ok_inv _ _ _ h
  obtain ⟨a5, _, h⟩ := exBind_ok_inv _ _ _ h
  rw [exPure] at h
  rw [← Except.ok.inj h]

/-- The speakers of a successfully parsed meeting all come from
`mkSpeakerFromApi`. -/
theorem parse_transcript_speakers (data : Json) (m : Meeting)
    (h : parse_transcript data = Except.ok m) :
    ∃ items : List Json, items.mapM mkSpeakerFromApi = Except.ok m.speakers := by
  unfold parse_transcript at h
  obtain ⟨sraw, _, h⟩ := exBind_ok_inv _ _ _ h
  obtain ⟨sitems, _, h⟩ := exBind_ok_inv _ _ _ h
  obtain ⟨sps, hsps, h⟩ := exBind_ok_inv _ _ _ h
  obtain ⟨a4, _, h⟩ := exBind_ok_inv _ _ _ h
  obtain ⟨a5, _, h⟩ := exBind_ok_inv _ _ _ h
  obtain ⟨a6, _, h⟩ := exBind_ok_inv _ _ _ h
  obtain ⟨a7, _, h⟩ := exBind_ok_inv _ _ _ h
  obtain ⟨a8, _, h⟩ := exBind_ok_inv _ _ _ h
  obtain ⟨a9, _, h⟩ := exBind_ok_inv _ _ _ h
  obtain ⟨a10, _, h⟩ := exBind_ok_inv _ _ _ h
  obtain ⟨a11, _, h⟩ := exBind_ok_inv _ _ _ h
  obtain ⟨a12, _, h⟩ := exBind_ok_inv _ _ _ h
  obtain ⟨a13, _, h⟩ := exBind_ok_inv _ _ _ h
  obtain ⟨a14, _, h⟩ := exBind_ok_inv _ _ _ h
  obtain ⟨a15, _, h⟩ := exBind_ok_inv _ _ _ h
  obtain ⟨a16, _, h⟩ := exBind_ok_inv _ _ _ h
  obtain ⟨a17, _, h⟩ := exBind_ok_inv _ _ _ h
  obtain ⟨a18, _, h⟩ := exBind_ok_inv _ _ _ h
  obtain ⟨a19, _, h⟩ := exBind_ok_inv _ _ _ h
  obtain ⟨a20, _, h⟩ := exBind_ok_inv _ _ _ h
  obtain ⟨a21, _, h⟩ := exBind_ok_inv _ _ _ h
  obtain ⟨a22, _, h⟩ := exBind_ok_inv _ _ _ h
  obtain ⟨a23, _, h⟩ := exBind_ok_inv _ _ _ h
  rw [exPure] at h
  have hm := Except.ok.inj h
  refine ⟨sitems, ?_⟩
  rw [hsps, ← hm]

/-- C10: every meeting built by `_parse_transcript` has the host flag
unset on every speaker, so the host test in `get_lead_statements`
reduces to marker matching alone. -/
theorem C10_no_host_flag (data : Json) (m : Meeting) (sp : Speaker)
    (ids : List String)
    (h : parse_transcript data = Except.ok m) (hsp : sp ∈ m.speakers) :
    sp.is_host = false
    ∧ m.isHostSpeaker ids sp = m.markerMatches ids sp := by
  obtain ⟨items, hmapm⟩ := parse_transcript_speakers data m h
  obtain ⟨e, _, hmk⟩ := mapM_mem_inv mkSpeakerFromApi items m.speakers sp hmapm hsp
  have hflag := mkSpeakerFromApi_no_host e sp hmk
  refine ⟨hflag, ?_⟩
  unfold Meeting.isHostSpeaker
  rw [hflag, Bool.false_or]

/-- Concrete transcript payload for the C10 witness. -/
def c10Data : Json :=
  jObj [("speakers", jArr [jObj [("id", jStr "s1"), ("name", jStr "Alice")]]),
        ("sentences", jArr []),
        ("date", jNum 1700000000000)]

/-- The speaker parsed from `c10Data`. -/
def c10Speaker : Speaker :=
  { id := "s1", name := "Alice", email := none, duration := 0, word_count := 0 }

/-- The meeting parsed from `c10Data`. -/
def c10Meeting : Meeting :=
  { id := "", title := "Untitled Meeting",
    date := MeetingDate.fromMillis 1700000000000, duration := 0,
    host_email := none, organizer_email := none,
    speakers := [c10Speaker], sentences := [], summary := {},
    transcript_url := none, participants := [] }

/-- Witness for C10 at a concrete parsed transcript. -/
theorem C10_no_host_flag_witness :
    parse_transcript c10Data = Except.ok c10Meeting
    ∧ c10Speaker ∈ c10Meeting.speakers
    ∧ (c10Speaker.is_host = false
       ∧ c10Meeting.isHostSpeaker ["alice"] c10Speaker =
          c10Meeting.markerMatches ["alice"] c10Speaker) :=
  ⟨rfl, List.mem_singleton.mpr rfl,
    C10_no_host_flag c10Data c10Meeting c10Speaker ["alice"] rfl
      (List.mem_singleton.mpr rfl)⟩

/-! ## Markdown export (`ReportExporter._build_markdown`)

The exporter builds a list of lines and joins them with newlines.  A
"section header appears in the document" is modelled as membership of
the header in the emitted line list.  Sections iterating the
pass-through `Json` fields can raise (`.get` on non-dict elements), so
the builder is `Except`-valued. -/

/-- The nine fixed section headers, in document order. -/
def mdSectionHeaders : List String :=
  ["## 1. Kunden-Insight-Profile", "## 2. Pain Point Matrix", "## 3. Lead-Fragen",
   "## 4. Einwand-Analyse", "## 5. Sprachanalyse", "## 6. Value Propositions",
   "## 7. Marketing-Empfehlungen", "## 8. Messaging-Leitfaden",
   "## 9. Conversion Triggers"]

/-- The fixed preamble: title, creation line, counts and a rule. -/
def mdHeaderLines (r : AnalysisResult) : List String :=
  ["# Meeting-Analyse Report", "", "**Erstellt:** " ++ r.timestamp,
   "**Analysierte Meetings:** " ++ toString r.meetings_analyzed,
   "**Lead-Aussagen:** " ++ toString r.total_lead_statements, "", "---", ""]

/-- Lines for one supporting quote of a customer profile. -/
def quoteLines (q : Json) : Except PyErr (List String) := do
  let qv ← pyGet q "quote" (jStr "")
  let cv ← pyGet q "context" jNull
  pure (["> \"" ++ pyStr qv ++ "\""]
    ++ (if pyTruthy cv then ["> *" ++ pyStr cv ++ "*"] else []))

/-- The conditional supporting-quotes block of one profile. -/
def profileQuoteBlock (p : CustomerProfile) : Except PyErr (List String) :=
  if pyTruthy p.supporting_quotes then do
    let items ← pyIter p.supporting_quotes
    let qls ← items.mapM quoteLines
    pure (["", "**Unterstützende Zitate:**"] ++ qls.flatten)
  else pure []

/-- The unconditional per-profile lines (header and present fields). -/
def profileBase (i : Nat) (p : CustomerProfile) : List String :=
  ["### Profil " ++ toString i]
    ++ (if p.company_name ≠ "" then ["- **Unternehmen:** " ++ p.company_name] else [])
    ++ (if p.industry ≠ "" then ["- **Branche:** " ++ p.industry] else [])
    ++ (if p.decision_maker_role ≠ ""
        then ["- **Entscheider-Rolle:** " ++ p.decision_maker_role] else [])
    ++ (if p.business_context ≠ ""
        then ["- **Geschäftskontext:** " ++ p.business_context] else [])
    ++ (if p.timeline_urgency ≠ ""
        then ["- **Dringlichkeit:** " ++ p.timeline_urgency] else [])

/-- Lines for one customer profile (1-based position `i`). -/
def profileLines (i : Nat) (p : CustomerProfile) : Except PyErr (List String) := do
  let quoteBlock ← profileQuoteBlock p
  pure (profileBase i p ++ quoteBlock ++ [""])

/-- The profile loop with 1-based enumeration. -/
def profilesLoop : Nat → List CustomerProfile → Except PyErr (List String)
  | _, [] => pure []
  | i, p :: rest => do
      let here ← profileLines i p
      let more ← profilesLoop (i + 1) rest
      pure (here ++ more)

/-- Section 1: customer profiles. -/
def profilesSection (r : AnalysisResult) : Except PyErr (List String) :=
  if r.customer_profiles.isEmpty then pure []
  else do
    let body ← profilesLoop 1 r.customer_profiles
    pure (["## 1. Kunden-Insight-Profile", ""] ++ body)

/-- `pp.category or "Sonstiges"`. -/
def ppCat (pp : PainPoint) : String :=
  if pp.category = "" then "Sonstiges" else pp.category

/-- Insertion-ordered first occurrences, as Python dict grouping keys. -/
def orderedKeys (l : List String) : List String :=
  l.foldl (fun acc c => if acc.contains c then acc else acc ++ [c]) []

/-- Lines for one pain point. -/
def painPointLines (pp : PainPoint) : List String :=
  ["**" ++ pp.description ++ "** (Priorität: " ++ pp.impact_level ++ ")", "",
   "> \"" ++ pp.direct_quote ++ "\"", "> — *" ++ pp.speaker ++ "*", ""]
  ++ (if pp.context ≠ "" then ["**Kontext:** " ++ pp.context] else [])
  ++ (if pp.desired_outcome ≠ ""
      then ["**Gewünschtes Ergebnis:** " ++ pp.desired_outcome] else [])
  ++ (if pp.impact_statement ≠ ""
      then ["**Auswirkung:** " ++ pp.impact_statement] else [])
  ++ [""]

/-- Lines for one pain-point category group. -/
def painGroupLines (pps : List PainPoint) (cat : String) : List String :=
  ["### " ++ cat, ""]
    ++ (pps.filter (fun pp => ppCat pp == cat)).flatMap painPointLines

/-- Section 2: pain point matrix grouped by category. -/
def painSection (r : AnalysisResult) : List String :=
  if r.pain_points.isEmpty then []
  else
    ["## 2. Pain Point Matrix", ""]
      ++ (orderedKeys (r.pain_points.map ppCat)).flatMap
          (painGroupLines r.pain_points)

/-- `q.category or "Allgemein"`. -/
def qCat (q : Question) : String :=
  if q.category = "" then "Allgemein" else q.category

/-- Lines for one question. -/
def questionLines (q : Question) : List String :=
  ["**Frage:** \"" ++ q.text ++ "\"", "- *" ++ q.speaker ++ "*"]
  ++ (if q.underlying_concern ≠ ""
      then ["- **Zugrundeliegende Sorge:** " ++ q.underlying_concern] else [])
  ++ [""]

/-- Lines for one question category group. -/
def questionGroupLines (qs : List Question) (cat : String) : List String :=
  ["### " ++ cat, ""] ++ (qs.filter (fun q => qCat q == cat)).flatMap questionLines

/-- Section 3: lead questions grouped by category. -/
def questionsSection (r : AnalysisResult) : List String :=
  if r.questions.isEmpty then []
  else
    ["## 3. Lead-Fragen", ""]
      ++ (orderedKeys (r.questions.map qCat)).flatMap
          (questionGroupLines r.questions)

/-- Lines for one objection. -/
def objectionLines (ob : Objection) : List String :=
  ["### \"" ++ ob.objection_text ++ "\"", "",
   "> \"" ++ ob.direct_quote ++ "\"", "> — *" ++ ob.speaker ++ "*", ""]
  ++ (if ob.emotional_undertone ≠ ""
      then ["**Emotionale Färbung:** " ++ ob.emotional_undertone] else [])
  ++ (if ob.root_cause ≠ "" then ["**Ursache:** " ++ ob.root_cause] else [])
  ++ (if ob.resolution_pathway ≠ ""
      then ["**Lösungsweg:** " ++ ob.resolution_pathway] else [])
  ++ (if ob.conversion_trigger ≠ ""
      then ["**Conversion Trigger:** " ++ ob.conversion_trigger] else [])
  ++ [""]

/-- Section 4: objection analysis. -/
def objectionsSection (r : AnalysisResult) : List String :=
  if r.objections.isEmpty then []
  else ["## 4. Einwand-Analyse", ""] ++ r.objections.flatMap objectionLines

/-- Lines for one language pattern. -/
def langPatternLines (lp : LanguagePattern) : List String :=
  ["- **\"" ++ lp.phrase ++ "\"** — " ++ lp.speaker]
  ++ (if lp.context ≠ "" then ["  - Kontext: " ++ lp.context] else [])

/-- The four fixed pattern categories with their display names. -/
def langCatPairs : List (String × String) :=
  [("industry_term", "Fachterminologie"), ("emotional", "Emotionale Sprache"),
   ("power_word", "Power Words"), ("metaphor", "Metaphern & Analogien")]

/-- Lines for one language-pattern group (omitted when no pattern has
the category). -/
def langGroupLines (lps : List LanguagePattern) (pair : String × String) :
    List String :=
  let patterns := lps.filter (fun lp => lp.category == pair.1)
  if patterns.isEmpty then []
  else ["### " ++ pair.2, ""] ++ patterns.flatMap langPatternLines ++ [""]

/-- Section 5: language analysis in the fixed category order. -/
def langSection (r : AnalysisResult) : List String :=
  if r.language_patterns.isEmpty then []
  else
    ["## 5. Sprachanalyse", ""]
      ++ langCatPairs.flatMap (langGroupLines r.language_patterns)

/-- Lines for one value proposition (pass-through `Json` element). -/
def vpLines (vp : Json) : Except PyErr (List String) := do
  let a ← pyGet vp "customer_need" (jStr "")
  let b ← pyGet vp "solution_alignment" (jStr "")
  let c ← pyGet vp "benefit_statement" (jStr "")
  pure ["**Kundenbedürfnis:** " ++ pyStr a, "**Lösung:** " ++ pyStr b,
        "**Nutzenaussage:** " ++ pyStr c, ""]

/-- Section 6: value propositions. -/
def vpSection (r : AnalysisResult) : Except PyErr (List String) :=
  if pyTruthy r.value_propositions then do
    let items ← pyIter r.value_propositions
    let ls ← items.mapM vpLines
    pure (["## 6. Value Propositions", ""] ++ ls.flatten)
  else pure []

/-- Lines for one marketing recommendation. -/
def mrLines (rec : Json) : Except PyErr (List String) := do
  let s ← pyGet rec "section" (jStr "Allgemein")
  let q ← pyGet rec "customer_quote" jNull
  let m ← pyGet rec "recommended_message" (jStr "")
  pure (["### " ++ pyStr s]
    ++ (if pyTruthy q then ["> \"" ++ pyStr q ++ "\""] else [])
    ++ ["**Empfehlung:** " ++ pyStr m, ""])

/-- Section 7: marketing recommendations. -/
def mrSection (r : AnalysisResult) : Except PyErr (List String) :=
  if pyTruthy r.marketing_recommendations then do
    let items ← pyIter r.marketing_recommendations
    let ls ← items.mapM mrLines
    pure (["## 7. Marketing-Empfehlungen", ""] ++ ls.flatten)
  else pure []

/-- Lines for one messaging guideline. -/
def mgLines (msg : Json) : Except PyErr (List String) := do
  let t ← pyGet msg "effective_term" (jStr "")
  let q ← pyGet msg "customer_quote" jNull
  let u ← pyGet msg "usage_recommendation" (jStr "")
  pure (["**Begriff:** \"" ++ pyStr t ++ "\""]
    ++ (if pyTruthy q then ["> \"" ++ pyStr q ++ "\""] else [])
    ++ ["**Empfehlung:** " ++ pyStr u, ""])

/-- Section 8: messaging guidelines. -/
def mgSection (r : AnalysisResult) : Except PyErr (List String) :=
  if pyTruthy r.messaging_guidelines then do
    let items ← pyIter r.messaging_guidelines
    let ls ← items.mapM mgLines
    pure (["## 8. Messaging-Leitfaden", ""] ++ ls.flatten)
  else pure []

/-- Section 9: conversion triggers. -/
def ctSection (r : AnalysisResult) : Except PyErr (List String) :=
  if pyTruthy r.conversion_triggers then do
    let items ← pyIter r.conversion_triggers
    pure (["## 9. Conversion Triggers", ""]
      ++ items.map (fun t => "- " ++ pyStr t) ++ [""])
  else pure []

/-- `ReportExporter._build_markdown`, as its emitted line list. -/
def build_markdown_lines (r : AnalysisResult) : Except PyErr (List String) := do
  let s1 ← profilesSection r
  let s6 ← vpSection r
  let s7 ← mrSection r
  let s8 ← mgSection r
  let s9 ← ctSection r
  pure (mdHeaderLines r ++ s1 ++ painSection r ++ questionsSection r
    ++ objectionsSection r ++ langSection r ++ s6 ++ s7 ++ s8 ++ s9)

/-- `ReportExporter._build_markdown`: the joined document. -/
def build_markdown (r : AnalysisResult) : Except PyErr String :=
  (build_markdown_lines r).map (pyJoin "\n")

/-- Every section header starts with `#`. -/
theorem header_take1 (s : String) (h : s ∈ mdSectionHeaders) :
    s.data.take 1 = ['#'] := by
  fin_cases h <;> rfl

/-- Every section header starts with `## ` (hash, hash, space). -/
theorem header_take3 (s : String) (h : s ∈ mdSectionHeaders) :
    s.data.take 3 = ['#', '#', ' '] := by
  fin_cases h <;> rfl

/-- A line not starting with `#` is no section header. -/
theorem not_header_of_take1 (s : String) (c : Char) (hne : ¬ c = '#')
    (h : s.data.take 1 = [c]) : s ∉ mdSectionHeaders := by
  intro hmem
  have h1 := header_take1 s hmem
  rw [h] at h1
  injection h1 with h2 h3
  exact hne h2

/-- A line starting with `###` is no section header. -/
theorem not_header_of_take3 (s : String)
    (h : s.data.take 3 = ['#', '#', '#']) : s ∉ mdSectionHeaders := by
  intro hmem
  have h1 := header_take3 s hmem
  rw [h] at h1
  exact absurd h1 (by decide)

/-- The preamble contains no section header. -/
theorem mdHeaderLines_safe (r : AnalysisResult) :
    ∀ x ∈ mdHeaderLines r, x ∉ mdSectionHeaders := by
  intro x hx
  simp only [mdHeaderLines, List.mem_cons, List.not_mem_nil, or_false] at hx
  rcases hx with rfl | rfl | rfl | rfl | rfl | rfl | rfl | rfl
  · decide
  · decide
  · exact not_header_of_take1 _ '*' (by decide) rfl
  · exact not_header_of_take1 _ '*' (by decide) rfl
  · exact not_header_of_take1 _ '*' (by decide) rfl
  · decide
  · decide
  · decide

/-- Supporting-quote lines contain no section header. -/
theorem quoteLines_safe (q : Json) (ls : List String)
    (h : quoteLines q = Except.ok ls) : ∀ x ∈ ls, x ∉ mdSectionHeaders := by
  unfold quoteLines at h
  obtain ⟨qv, _, h⟩ := exBind_ok_inv _ _ _ h
  obtain ⟨cv, _, h⟩ := exBind_ok_inv _ _ _ h
  rw [exPure] at h
  have hls := (Except.ok.inj h).symm
  subst hls
  intro x hx
  simp only [List.mem_append, List.mem_cons, List.not_mem_nil, or_false,
    List.mem_ite_nil_right] at hx
  rcases hx with rfl | ⟨-, rfl⟩
  · exact not_header_of_take1 _ '>' (by decide) rfl
  · exact not_header_of_take1 _ '>' (by decide) rfl

/-- Customer-profile lines contain no section header. -/
theorem profileQuoteBlock_safe (p : CustomerProfile) (qb : List String)
    (hqb : profileQuoteBlock p = Except.ok qb) : ∀ x ∈ qb, x ∉ mdSectionHeaders := by
  unfold profileQuoteBlock at hqb
  by_cases hc : pyTruthy p.supporting_quotes = true
  · rw [if_pos hc] at hqb
    obtain ⟨items, _, hqb⟩ := exBind_ok_inv _ _ _ hqb
    obtain ⟨qls, hqls, hqb⟩ := exBind_ok_inv _ _ _ hqb
    rw [exPure] at hqb
    have hqb2 := (Except.ok.inj hqb).symm
    subst hqb2
    intro x hx
    simp only [List.mem_append, List.mem_cons, List.not_mem_nil, or_false] at hx
    rcases hx with (rfl | rfl) | hx
    · decide
    · decide
    · obtain ⟨sub, hsub, hxsub⟩ := List.mem_flatten.mp hx
      obtain ⟨e, _, he⟩ := mapM_mem_inv quoteLines items qls sub hqls hsub
      exact quoteLines_safe e sub he x hxsub
  · rw [if_neg hc] at hqb
    have := (Except.ok.inj hqb).symm
    subst this
    intro x hx
    exact absurd hx (List.not_mem_nil x)

/-- Customer-profile lines contain no section header. -/
theorem profileLines_safe (i : Nat) (p : CustomerProfile) (ls : List String)
    (h : profileLines i p = Except.ok ls) : ∀ x ∈ ls, x ∉ mdSectionHeaders := by
  unfold profileLines at h
  obtain ⟨qb, hqb, h⟩ := exBind_ok_inv _ _ _ h
  rw [exPure] at h
  have hls := (Except.ok.inj h).symm
  subst hls
  intro x hx
  simp only [profileBase, List.mem_append, List.mem_cons, List.not_mem_nil,
    or_false, List.mem_ite_nil_right] at hx
  rcases hx with ((((((rfl | ⟨-, rfl⟩) | ⟨-, rfl⟩) | ⟨-, rfl⟩) | ⟨-, rfl⟩) | ⟨-, rfl⟩) | hx) | rfl
  · exact not_header_of_take3 _ rfl
  · exact not_header_of_take1 _ '-' (by decide) rfl
  · exact not_header_of_take1 _ '-' (by decide) rfl
  · exact not_header_of_take1 _ '-' (by decide) rfl
  · exact not_header_of_take1 _ '-' (by decide) rfl
  · exact not_header_of_take1 _ '-' (by decide) rfl
  · exact profileQuoteBlock_safe p qb hqb x hx
  · decide

/-- The profile loop emits no section header. -/
theorem profilesLoop_safe (ps : List CustomerProfile) (i : Nat) (ls : List String)
    (h : profilesLoop i ps = Except.ok ls) : ∀ x ∈ ls, x ∉ mdSectionHeaders := by
  induction ps generalizing i ls with
  | nil =>
      unfold profilesLoop at h
      rw [exPure] at h
      have := (Except.ok.inj h).symm
      subst this
      intro x hx
      exact absurd hx (List.not_mem_nil x)
  | cons p rest ih =>
      unfold profilesLoop at h
      obtain ⟨here, hhere, h⟩ := exBind_ok_inv _ _ _ h
      obtain ⟨more, hmore, h⟩ := exBind_ok_inv _ _ _ h
      rw [exPure] at h
      have := (Except.ok.inj h).symm
      subst this
      intro x hx
      rcases List.mem_append.mp hx with hx | hx
      · exact profileLines_safe i p here hhere x hx
      · exact ih (i + 1) more hmore x hx

/-- Pain-point lines contain no section header. -/
theorem painPointLines_safe (pp : PainPoint) :
    ∀ x ∈ painPointLines pp, x ∉ mdSectionHeaders := by
  intro x hx
  simp only [painPointLines, List.mem_append, List.mem_cons, List.not_mem_nil,
    or_false, List.mem_ite_nil_right] at hx
  rcases hx with ((((rfl | rfl | rfl | rfl | rfl) | ⟨-, rfl⟩) | ⟨-, rfl⟩) | ⟨-, rfl⟩) | rfl
  · exact not_header_of_take1 _ '*' (by decide) rfl
  · decide
  · exact not_header_of_take1 _ '>' (by decide) rfl
  · exact not_header_of_take1 _ '>' (by decide) rfl
  · decide
  · exact not_header_of_take1 _ '*' (by decide) rfl
  · exact not_header_of_take1 _ '*' (by decide) rfl
  · exact not_header_of_take1 _ '*' (by decide) rfl
  · decide

/-- Pain-point group lines contain no section header. -/
theorem painGroupLines_safe (pps : List PainPoint) (cat : String) :
    ∀ x ∈ painGroupLines pps cat, x ∉ mdSectionHeaders := by
  intro x hx
  simp only [painGroupLines, List.mem_append, List.mem_cons, List.not_mem_nil,
    or_false] at hx
  rcases hx with (rfl | rfl) | hx
  · exact not_header_of_take3 _ rfl
  · decide
  · obtain ⟨pp, _, hxp⟩ := List.mem_flatMap.mp hx
    exact painPointLines_safe pp x hxp

/-- Pain-section lines are the section header or no header at all. -/
theorem painSection_safe (r : AnalysisResult) :
    ∀ x ∈ painSection r, x = "## 2. Pain Point Matrix" ∨ x ∉ mdSectionHeaders := by
  intro x hx
  unfold painSection at hx
  by_cases hc : r.pain_points.isEmpty
  · rw [if_pos hc] at hx
    exact absurd hx (List.not_mem_nil x)
  · rw [if_neg hc] at hx
    rcases List.mem_append.mp hx with hx | hx
    · rcases List.mem_cons.mp hx with rfl | hx
      · exact Or.inl rfl
      · refine Or.inr ?_
        rcases List.mem_cons.mp hx with rfl | hx
        · decide
        · exact absurd hx (List.not_mem_nil x)
    · obtain ⟨cat, _, hxp⟩ := List.mem_flatMap.mp hx
      exact Or.inr (painGroupLines_safe r.pain_points cat x hxp)

/-- The pain-section header appears exactly when pain points exist. -/
theorem painSection_hdr (r : AnalysisResult) :
    "## 2. Pain Point Matrix" ∈ painSection r ↔ r.pain_points ≠ [] := by
  unfold painSection
  by_cases hc : r.pain_points.isEmpty
  · rw [if_pos hc]
    simp only [List.not_mem_nil, false_iff, ne_eq, not_not]
    exact List.isEmpty_iff.mp hc
  · rw [if_neg hc]
    constructor
    · intro _
      intro heq
      rw [heq] at hc
      exact hc rfl
    · intro _
      exact List.mem_append.mpr (Or.inl (List.mem_cons_self _ _))

/-- Question lines contain no section header. -/
theorem questionLines_safe (q : Question) :
    ∀ x ∈ questionLines q, x ∉ mdSectionHeaders := by
  intro x hx
  simp only [questionLines, List.mem_append, List.mem_cons, List.not_mem_nil,
    or_false, List.mem_ite_nil_right] at hx
  rcases hx with ((rfl | rfl) | ⟨-, rfl⟩) | rfl
  · exact not_header_of_take1 _ '*' (by decide) rfl
  · exact not_header_of_take1 _ '-' (by decide) rfl
  · exact not_header_of_take1 _ '-' (by decide) rfl
  · decide

/-- Question group lines contain no section header. -/
theorem questionGroupLines_safe (qs : List Question) (cat : String) :
    ∀ x ∈ questionGroupLines qs cat, x ∉ mdSectionHeaders := by
  intro x hx
  simp only [questionGroupLines, List.mem_append, List.mem_cons, List.not_mem_nil,
    or_false] at hx
  rcases hx with (rfl | rfl) | hx
  · exact not_header_of_take3 _ rfl
  · decide
  · obtain ⟨q, _, hxq⟩ := List.mem_flatMap.mp hx
    exact questionLines_safe q x hxq

/-- Question-section lines are the section header or no header at all. -/
theorem questionsSection_safe (r : AnalysisResult) :
    ∀ x ∈ questionsSection r, x = "## 3. Lead-Fragen" ∨ x ∉ mdSectionHeaders := by
  intro x hx
  unfold questionsSection at hx
  by_cases hc : r.questions.isEmpty
  · rw [if_pos hc] at hx
    exact absurd hx (List.not_mem_nil x)
  · rw [if_neg hc] at hx
    rcases List.mem_append.mp hx with hx | hx
    · rcases List.mem_cons.mp hx with rfl | hx
      · exact Or.inl rfl
      · refine Or.inr ?_
        rcases List.mem_cons.mp hx with rfl | hx
        · decide
        · exact absurd hx (List.not_mem_nil x)
    · obtain ⟨cat, _, hxq⟩ := List.mem_flatMap.mp hx
      exact Or.inr (questionGroupLines_safe r.questions cat x hxq)

/-- The question-section header appears exactly when questions exist. -/
theorem questionsSection_hdr (r : AnalysisResult) :
    "## 3. Lead-Fragen" ∈ questionsSection r ↔ r.questions ≠ [] := by
  unfold questionsSection
  by_cases hc : r.questions.isEmpty
  · rw [if_pos hc]
    simp only [List.not_mem_nil, false_iff, ne_eq, not_not]
    exact List.isEmpty_iff.mp hc
  · rw [if_neg hc]
    constructor
    · intro _
      intro heq
      rw [heq] at hc
      exact hc rfl
    · intro _
      exact List.mem_append.mpr (Or.inl (List.mem_cons_self _ _))

/-- Objection lines contain no section header. -/
theorem objectionLines_safe (ob : Objection) :
    ∀ x ∈ objectionLines ob, x ∉ mdSectionHeaders := by
  intro x hx
  simp only [objectionLines, List.mem_append, List.mem_cons, List.not_mem_nil,
    or_false, List.mem_ite_nil_right] at hx
  rcases hx with
    (((((rfl | rfl | rfl | rfl | rfl) | ⟨-, rfl⟩) | ⟨-, rfl⟩) | ⟨-, rfl⟩) | ⟨-, rfl⟩) | rfl
  · exact not_header_of_take3 _ rfl
  · decide
  · exact not_header_of_take1 _ '>' (by decide) rfl
  · exact not_header_of_take1 _ '>' (by decide) rfl
  · decide
  · exact not_header_of_take1 _ '*' (by decide) rfl
  · exact not_header_of_take1 _ '*' (by decide) rfl
  · exact not_header_of_take1 _ '*' (by decide) rfl
  · exact not_header_of_take1 _ '*' (by decide) rfl
  · decide

/-- Objection-section lines are the section header or no header at all. -/
theorem objectionsSection_safe (r : AnalysisResult) :
    ∀ x ∈ objectionsSection r, x = "## 4. Einwand-Analyse" ∨ x ∉ mdSectionHeaders := by
  intro x hx
  unfold objectionsSection at hx
  by_cases hc : r.objections.isEmpty
  · rw [if_pos hc] at hx
    exact absurd hx (List.not_mem_nil x)
  · rw [if_neg hc] at hx
    rcases List.mem_append.mp hx with hx | hx
    · rcases List.mem_cons.mp hx with rfl | hx
      · exact Or.inl rfl
      · refine Or.inr ?_
        rcases List.mem_cons.mp hx with rfl | hx
        · decide
        · exact absurd hx (List.not_mem_nil x)
    · obtain ⟨ob, _, hxo⟩ := List.mem_flatMap.mp hx
      exact Or.inr (objectionLines_safe ob x hxo)

/-- The objection-section header appears exactly when objections exist. -/
theorem objectionsSection_hdr (r : AnalysisResult) :
    "## 4. Einwand-Analyse" ∈ objectionsSection r ↔ r.objections ≠ [] := by
  unfold objectionsSection
  by_cases hc : r.objections.isEmpty
  · rw [if_pos hc]
    simp only [List.not_mem_nil, false_iff, ne_eq, not_not]
    exact List.isEmpty_iff.mp hc
  · rw [if_neg hc]
    constructor
    · intro _
      intro heq
      rw [heq] at hc
      exact hc rfl
    · intro _
      exact List.mem_append.mpr (Or.inl (List.mem_cons_self _ _))

/-- Every objection's direct quote appears on a blockquote line of the
objection section. -/
theorem objectionsSection_quote (r : AnalysisResult) (ob : Objection)
    (hob : ob ∈ r.objections) :
    ("> \"" ++ ob.direct_quote ++ "\"") ∈ objectionsSection r := by
  unfold objectionsSection
  have hne : ¬ r.objections.isEmpty := by
    intro hc
    rw [List.isEmpty_iff.mp hc] at hob
    exact absurd hob (List.not_mem_nil ob)
  rw [if_neg hne]
  refine List.mem_append.mpr (Or.inr ?_)
  refine List.mem_flatMap.mpr ⟨ob, hob, ?_⟩
  simp [objectionLines]

/-- Language-pattern lines contain no section header. -/
theorem langPatternLines_safe (lp : LanguagePattern) :
    ∀ x ∈ langPatternLines lp, x ∉ mdSectionHeaders := by
  intro x hx
  simp only [langPatternLines, List.mem_append, List.mem_cons, List.not_mem_nil,
    or_false, List.mem_ite_nil_right] at hx
  rcases hx with rfl | ⟨-, rfl⟩
  · exact not_header_of_take1 _ '-' (by decide) rfl
  · exact not_header_of_take1 _ ' ' (by decide) rfl

/-- Language-group lines contain no section header. -/
theorem langGroupLines_safe (lps : List LanguagePattern) (pair : String × String) :
    ∀ x ∈ langGroupLines lps pair, x ∉ mdSectionHeaders := by
  intro x hx
  unfold langGroupLines at hx
  by_cases hc : (lps.filter (fun lp => lp.category == pair.1)).isEmpty
  · rw [if_pos hc] at hx
    exact absurd hx (List.not_mem_nil x)
  · rw [if_neg hc] at hx
    rcases List.mem_append.mp hx with hx | hx
    · rcases List.mem_append.mp hx with hx | hx
      · rcases List.mem_cons.mp hx with rfl | hx
        · exact not_header_of_take3 _ rfl
        · rcases List.mem_cons.mp hx with rfl | hx
          · decide
          · exact absurd hx (List.not_mem_nil x)
      · obtain ⟨lp, _, hxl⟩ := List.mem_flatMap.mp hx
        exact langPatternLines_safe lp x hxl
    · rcases List.mem_cons.mp hx with rfl | hx
      · decide
      · exact absurd hx (List.not_mem_nil x)

/-- Language-section lines are the section header or no header at all. -/
theorem langSection_safe (r : AnalysisResult) :
    ∀ x ∈ langSection r, x = "## 5. Sprachanalyse" ∨ x ∉ mdSectionHeaders := by
  intro x hx
  unfold langSection at hx
  by_cases hc : r.language_patterns.isEmpty
  · rw [if_pos hc] at hx
    exact absurd hx (List.not_mem_nil x)
  · rw [if_neg hc] at hx
    rcases List.mem_append.mp hx with hx | hx
    · rcases List.mem_cons.mp hx with rfl | hx
      · exact Or.inl rfl
      · refine Or.inr ?_
        rcases List.mem_cons.mp hx with rfl | hx
        · decide
        · exact absurd hx (List.not_mem_nil x)
    · obtain ⟨pair, _, hxl⟩ := List.mem_flatMap.mp hx
      exact Or.inr (langGroupLines_safe r.language_patterns pair x hxl)

/-- The language-section header appears exactly when patterns exist. -/
theorem langSection_hdr (r : AnalysisResult) :
    "## 5. Sprachanalyse" ∈ langSection r ↔ r.language_patterns ≠ [] := by
  unfold langSection
  by_cases hc : r.language_patterns.isEmpty
  · rw [if_pos hc]
    simp only [List.not_mem_nil, false_iff, ne_eq, not_not]
    exact List.isEmpty_iff.mp hc
  · rw [if_neg hc]
    constructor
    · intro _
      intro heq
      rw [heq] at hc
      exact hc rfl
    · intro _
      exact List.mem_append.mpr (Or.inl (List.mem_cons_self _ _))

/-- Profile-section lines are the section header or no header at all. -/
theorem profilesSection_safe (r : AnalysisResult) (s1 : List String)
    (h : profilesSection r = Except.ok s1) :
    ∀ x ∈ s1, x = "## 1. Kunden-Insight-Profile" ∨ x ∉ mdSectionHeaders := by
  unfold profilesSection at h
  by_cases hc : r.customer_profiles.isEmpty
  · rw [if_pos hc, exPure] at h
    have := (Except.ok.inj h).symm
    subst this
    intro x hx
    exact absurd hx (List.not_mem_nil x)
  · rw [if_neg hc] at h
    obtain ⟨body, hbody, h⟩ := exBind_ok_inv _ _ _ h
    rw [exPure] at h
    have := (Except.ok.inj h).symm
    subst this
    intro x hx
    rcases List.mem_append.mp hx with hx | hx
    · rcases List.mem_cons.mp hx with rfl | hx
      · exact Or.inl rfl
      · refine Or.inr ?_
        rcases List.mem_cons.mp hx with rfl | hx
        · decide
        · exact absurd hx (List.not_mem_nil x)
    · exact Or.inr (profilesLoop_safe r.customer_profiles 1 body hbody x hx)

/-- The profile-section header appears exactly when profiles exist. -/
theorem profilesSection_hdr (r : AnalysisResult) (s1 : List String)
    (h : profilesSection r = Except.ok s1) :
    "## 1. Kunden-Insight-Profile" ∈ s1 ↔ r.customer_profiles ≠ [] := by
  unfold profilesSection at h
  by_cases hc : r.customer_profiles.isEmpty
  · rw [if_pos hc, exPure] at h
    have := (Except.ok.inj h).symm
    subst this
    simp only [List.not_mem_nil, false_iff, ne_eq, not_not]
    exact List.isEmpty_iff.mp hc
  · rw [if_neg hc] at h
    obtain ⟨body, hbody, h⟩ := exBind_ok_inv _ _ _ h
    rw [exPure] at h
    have := (Except.ok.inj h).symm
    subst this
    constructor
    · intro _
      intro heq
      rw [heq] at hc
      exact hc rfl
    · intro _
      exact List.mem_append.mpr (Or.inl (List.mem_cons_self _ _))

/-- Value-proposition lines contain no section header. -/
theorem vpLines_safe (vp : Json) (ls : List String)
    (h : vpLines vp = Except.ok ls) : ∀ x ∈ ls, x ∉ mdSectionHeaders := by
  unfold vpLines at h
  obtain ⟨a, _, h⟩ := exBind_ok_inv _ _ _ h
  obtain ⟨b, _, h⟩ := exBind_ok_inv _ _ _ h
  obtain ⟨c, _, h⟩ := exBind_ok_inv _ _ _ h
  rw [exPure] at h
  have := (Except.ok.inj h).symm
  subst this
  intro x hx
  simp only [List.mem_cons, List.not_mem_nil, or_false] at hx
  rcases hx with rfl | rfl | rfl | rfl
  · exact not_header_of_take1 _ '*' (by decide) rfl
  · exact not_header_of_take1 _ '*' (by decide) rfl
  · exact not_header_of_take1 _ '*' (by decide) rfl
  · decide

/-- Marketing-recommendation lines contain no section header. -/
theorem mrLines_safe (rec : Json) (ls : List String)
    (h : mrLines rec = Except.ok ls) : ∀ x ∈ ls, x ∉ mdSectionHeaders := by
  unfold mrLines at h
  obtain ⟨a, _, h⟩ := exBind_ok_inv _ _ _ h
  obtain ⟨b, _, h⟩ := exBind_ok_inv _ _ _ h
  obtain ⟨c, _, h⟩ := exBind_ok_inv _ _ _ h
  rw [exPure] at h
  have := (Except.ok.inj h).symm
  subst this
  intro x hx
  simp only [List.mem_append, List.mem_cons, List.not_mem_nil, or_false,
    List.mem_ite_nil_right] at hx
  rcases hx with (rfl | ⟨-, rfl⟩) | (rfl | rfl)
  · exact not_header_of_take3 _ rfl
  · exact not_header_of_take1 _ '>' (by decide) rfl
  · exact not_header_of_take1 _ '*' (by decide) rfl
  · decide

/-- Messaging-guideline lines contain no section header. -/
theorem mgLines_safe (msg : Json) (ls : List String)
    (h : mgLines msg = Except.ok ls) : ∀ x ∈ ls, x ∉ mdSectionHeaders := by
  unfold mgLines at h
  obtain ⟨a, _, h⟩ := exBind_ok_inv _ _ _ h
  obtain ⟨b, _, h⟩ := exBind_ok_inv _ _ _ h
  obtain ⟨c, _, h⟩ := exBind_ok_inv _ _ _ h
  rw [exPure] at h
  have := (Except.ok.inj h).symm
  subst this
  intro x hx
  simp only [List.mem_append, List.mem_cons, List.not_mem_nil, or_false,
    List.mem_ite_nil_right] at hx
  rcases hx with (rfl | ⟨-, rfl⟩) | (rfl | rfl)
  · exact not_header_of_take1 _ '*' (by decide) rfl
  · exact not_header_of_take1 _ '>' (by decide) rfl
  · exact not_header_of_take1 _ '*' (by decide) rfl
  · decide

/-- Value-proposition section lines are the section header or none. -/
theorem vpSection_safe (r : AnalysisResult) (s6 : List String)
    (h : vpSection r = Except.ok s6) :
    ∀ x ∈ s6, x = "## 6. Value Propositions" ∨ x ∉ mdSectionHeaders := by
  unfold vpSection at h
  by_cases hc : pyTruthy r.value_propositions = true
  · rw [if_pos hc] at h
    obtain ⟨items, _, h⟩ := exBind_ok_inv _ _ _ h
    obtain ⟨lss, hlss, h⟩ := exBind_ok_inv _ _ _ h
    rw [exPure] at h
    have := (Except.ok.inj h).symm
    subst this
    intro x hx
    rcases List.mem_append.mp hx with hx | hx
    · rcases List.mem_cons.mp hx with rfl | hx
      · exact Or.inl rfl
      · refine Or.inr ?_
        rcases List.mem_cons.mp hx with rfl | hx
        · decide
        · exact absurd hx (List.not_mem_nil x)
    · obtain ⟨sub, hsub, hxs⟩ := List.mem_flatten.mp hx
      obtain ⟨e, _, he⟩ := mapM_mem_inv vpLines items lss sub hlss hsub
      exact Or.inr (vpLines_safe e sub he x hxs)
  · rw [if_neg hc, exPure] at h
    have := (Except.ok.inj h).symm
    subst this
    intro x hx
    exact absurd hx (List.not_mem_nil x)

/-- The value-proposition header appears exactly when the field is
truthy. -/
theorem vpSection_hdr (r : AnalysisResult) (s6 : List String)
    (h : vpSection r = Except.ok s6) :
    "## 6. Value Propositions" ∈ s6 ↔ pyTruthy r.value_propositions = true := by
  unfold vpSection at h
  by_cases hc : pyTruthy r.value_propositions = true
  · rw [if_pos hc] at h
    obtain ⟨items, _, h⟩ := exBind_ok_inv _ _ _ h
    obtain ⟨lss, hlss, h⟩ := exBind_ok_inv _ _ _ h
    rw [exPure] at h
    have := (Except.ok.inj h).symm
    subst this
    simp only [hc, iff_true]
    exact List.mem_append.mpr (Or.inl (List.mem_cons_self _ _))
  · rw [if_neg hc, exPure] at h
    have := (Except.ok.inj h).symm
    subst this
    simp only [List.not_mem_nil, false_iff]
    exact hc

/-- Marketing section lines are the section header or none. -/
theorem mrSection_safe (r : AnalysisResult) (s7 : List String)
    (h : mrSection r = Except.ok s7) :
    ∀ x ∈ s7, x = "## 7. Marketing-Empfehlungen" ∨ x ∉ mdSectionHeaders := by
  unfold mrSection at h
  by_cases hc : pyTruthy r.marketing_recommendations = true
  · rw [if_pos hc] at h
    obtain ⟨items, _, h⟩ := exBind_ok_inv _ _ _ h
    obtain ⟨lss, hlss, h⟩ := exBind_ok_inv _ _ _ h
    rw [exPure] at h
    have := (Except.ok.inj h).symm
    subst this
    intro x hx
    rcases List.mem_append.mp hx with hx | hx
    · rcases List.mem_cons.mp hx with rfl | hx
      · exact Or.inl rfl
      · refine Or.inr ?_
        rcases List.mem_cons.mp hx with rfl | hx
        · decide
        · exact absurd hx (List.not_mem_nil x)
    · obtain ⟨sub, hsub, hxs⟩ := List.mem_flatten.mp hx
      obtain ⟨e, _, he⟩ := mapM_mem_inv mrLines items lss sub hlss hsub
      exact Or.inr (mrLines_safe e sub he x hxs)
  · rw [if_neg hc, exPure] at h
    have := (Except.ok.inj h).symm
    subst this
    intro x hx
    exact absurd hx (List.not_mem_nil x)

/-- The marketing header appears exactly when the field is truthy. -/
theorem mrSection_hdr (r : AnalysisResult) (s7 : List String)
    (h : mrSection r = Except.ok s7) :
    "## 7. Marketing-Empfehlungen" ∈ s7 ↔
      pyTruthy r.marketing_recommendations = true := by
  unfold mrSection at h
  by_cases hc : pyTruthy r.marketing_recommendations = true
  · rw [if_pos hc] at h
    obtain ⟨items, _, h⟩ := exBind_ok_inv _ _ _ h
    obtain ⟨lss, hlss, h⟩ := exBind_ok_inv _ _ _ h
    rw [exPure] at h
    have := (Except.ok.inj h).symm
    subst this
    simp only [hc, iff_true]
    exact List.mem_append.mpr (Or.inl (List.mem_cons_self _ _))
  · rw [if_neg hc, exPure] at h
    have := (Except.ok.inj h).symm
    subst this
    simp only [List.not_mem_nil, false_iff]
    exact hc

/-- Messaging section lines are the section header or none. -/
theorem mgSection_safe (r : AnalysisResult) (s8 : List String)
    (h : mgSection r = Except.ok s8) :
    ∀ x ∈ s8, x = "## 8. Messaging-Leitfaden" ∨ x ∉ mdSectionHeaders := by
  unfold mgSection at h
  by_cases hc : pyTruthy r.messaging_guidelines = true
  · rw [if_pos hc] at h
    obtain ⟨items, _, h⟩ := exBind_ok_inv _ _ _ h
    obtain ⟨lss, hlss, h⟩ := exBind_ok_inv _ _ _ h
    rw [exPure] at h
    have := (Except.ok.inj h).symm
    subst this
    intro x hx
    rcases List.mem_append.mp hx with hx | hx
    · rcases List.mem_cons.mp hx with rfl | hx
      · exact Or.inl rfl
      · refine Or.inr ?_
        rcases List.mem_cons.mp hx with rfl | hx
        · decide
        · exact absurd hx (List.not_mem_nil x)
    · obtain ⟨sub, hsub, hxs⟩ := List.mem_flatten.mp hx
      obtain ⟨e, _, he⟩ := mapM_mem_inv mgLines items lss sub hlss hsub
      exact Or.inr (mgLines_safe e sub he x hxs)
  · rw [if_neg hc, exPure] at h
    have := (Except.ok.inj h).symm
    subst this
    intro x hx
    exact absurd hx (List.not_mem_nil x)

/-- The messaging header appears exactly when the field is truthy. -/
theorem mgSection_hdr (r : AnalysisResult) (s8 : List String)
    (h : mgSection r = Except.ok s8) :
    "## 8. Messaging-Leitfaden" ∈ s8 ↔ pyTruthy r.messaging_guidelines = true := by
  unfold mgSection at h
  by_cases hc : pyTruthy r.messaging_guidelines = true
  · rw [if_pos hc] at h
    obtain ⟨items, _, h⟩ := exBind_ok_inv _ _ _ h
    obtain ⟨lss, hlss, h⟩ := exBind_ok_inv _ _ _ h
    rw [exPure] at h
    have := (Except.ok.inj h).symm
    subst this
    simp only [hc, iff_true]
    exact List.mem_append.mpr (Or.inl (List.mem_cons_self _ _))
  · rw [if_neg hc, exPure] at h
    have := (Except.ok.inj h).symm
    subst this
    simp only [List.not_mem_nil, false_iff]
    exact hc

/-- Conversion-trigger section lines are the section header or none. -/
theorem ctSection_safe (r : AnalysisResult) (s9 : List String)
    (h : ctSection r = Except.ok s9) :
    ∀ x ∈ s9, x = "## 9. Conversion Triggers" ∨ x ∉ mdSectionHeaders := by
  unfold ctSection at h
  by_cases hc : pyTruthy r.conversion_triggers = true
  · rw [if_pos hc] at h
    obtain ⟨items, _, h⟩ := exBind_ok_inv _ _ _ h
    rw [exPure] at h
    have := (Except.ok.inj h).symm
    subst this
    intro x hx
    rcases List.mem_append.mp hx with hx | hx
    · rcases List.mem_append.mp hx with hx | hx
      · rcases List.mem_cons.mp hx with rfl | hx
        · exact Or.inl rfl
        · refine Or.inr ?_
          rcases List.mem_cons.mp hx with rfl | hx
          · decide
          · exact absurd hx (List.not_mem_nil x)
      · obtain ⟨t, _, hxt⟩ := List.mem_map.mp hx
        refine Or.inr ?_
        rw [← hxt]
        exact not_header_of_take1 _ '-' (by decide) rfl
    · rcases List.mem_cons.mp hx with rfl | hx
      · exact Or.inr (by decide)
      · exact absurd hx (List.not_mem_nil x)
  · rw [if_neg hc, exPure] at h
    have := (Except.ok.inj h).symm
    subst this
    intro x hx
    exact absurd hx (List.not_mem_nil x)

/-- The conversion-trigger header appears exactly when the field is
truthy. -/
theorem ctSection_hdr (r : AnalysisResult) (s9 : List String)
    (h : ctSection r = Except.ok s9) :
    "## 9. Conversion Triggers" ∈ s9 ↔ pyTruthy r.conversion_triggers = true := by
  unfold ctSection at h
  by_cases hc : pyTruthy r.conversion_triggers = true
  · rw [if_pos hc] at h
    obtain ⟨items, _, h⟩ := exBind_ok_inv _ _ _ h
    rw [exPure] at h
    have := (Except.ok.inj h).symm
    subst this
    simp only [hc, iff_true]
    exact List.mem_append.mpr (Or.inl (List.mem_append.mpr
      (Or.inl (List.mem_cons_self _ _))))
  · rw [if_neg hc, exPure] at h
    have := (Except.ok.inj h).symm
    subst this
    simp only [List.not_mem_nil, false_iff]
    exact hc

/-- C8: in the emitted Markdown line list, each of the nine section
headers appears exactly when its category is non-empty (truthy for the
pass-through categories), and every objection's direct quote appears on
a blockquote line. -/
theorem C8_markdown_sections (r : AnalysisResult) (L : List String)
    (h : build_markdown_lines r = Except.ok L) :
    ("## 1. Kunden-Insight-Profile" ∈ L ↔ r.customer_profiles ≠ [])
    ∧ ("## 2. Pain Point Matrix" ∈ L ↔ r.pain_points ≠ [])
    ∧ ("## 3. Lead-Fragen" ∈ L ↔ r.questions ≠ [])
    ∧ ("## 4. Einwand-Analyse" ∈ L ↔ r.objections ≠ [])
    ∧ ("## 5. Sprachanalyse" ∈ L ↔ r.language_patterns ≠ [])
    ∧ ("## 6. Value Propositions" ∈ L ↔ pyTruthy r.value_propositions = true)
    ∧ ("## 7. Marketing-Empfehlungen" ∈ L ↔
        pyTruthy r.marketing_recommendations = true)
    ∧ ("## 8. Messaging-Leitfaden" ∈ L ↔ pyTruthy r.messaging_guidelines = true)
    ∧ ("## 9. Conversion Triggers" ∈ L ↔ pyTruthy r.conversion_triggers = true)
    ∧ (∀ ob ∈ r.objections, ("> \"" ++ ob.direct_quote ++ "\"") ∈ L) := by
  unfold build_markdown_lines at h
  obtain ⟨s1, h1, h⟩ := exBind_ok_inv _ _ _ h
  obtain ⟨s6, h6, h⟩ := exBind_ok_inv _ _ _ h
  obtain ⟨s7, h7, h⟩ := exBind_ok_inv _ _ _ h
  obtain ⟨s8, h8, h⟩ := exBind_ok_inv _ _ _ h
  obtain ⟨s9, h9, h⟩ := exBind_ok_inv _ _ _ h
  rw [exPure] at h
  have hL := (Except.ok.inj h).symm
  subst hL
  have hmem :
      ∀ x, x ∈ mdHeaderLines r ++ s1 ++ painSection r ++ questionsSection r
          ++ objectionsSection r ++ langSection r ++ s6 ++ s7 ++ s8 ++ s9 →
        x ∈ mdHeaderLines r ∨ x ∈ s1 ∨ x ∈ painSection r ∨ x ∈ questionsSection r
          ∨ x ∈ objectionsSection r ∨ x ∈ langSection r ∨ x ∈ s6 ∨ x ∈ s7
          ∨ x ∈ s8 ∨ x ∈ s9 := by
    intro x hx
    simp only [List.mem_append] at hx
    tauto
  have hback :
      ∀ x, (x ∈ mdHeaderLines r ∨ x ∈ s1 ∨ x ∈ painSection r
          ∨ x ∈ questionsSection r ∨ x ∈ objectionsSection r ∨ x ∈ langSection r
          ∨ x ∈ s6 ∨ x ∈ s7 ∨ x ∈ s8 ∨ x ∈ s9) →
        x ∈ mdHeaderLines r ++ s1 ++ painSection r ++ questionsSection r
          ++ objectionsSection r ++ langSection r ++ s6 ++ s7 ++ s8 ++ s9 := by
    intro x hx
    simp only [List.mem_append]
    tauto
  have noHdr : ∀ x ∈ mdHeaderLines r, x ∉ mdSectionHeaders := mdHeaderLines_safe r
  refine ⟨?_, ?_, ?_, ?_, ?_, ?_, ?_, ?_, ?_, ?_⟩
  · constructor
    · intro hm
      rcases hmem _ hm with hx | hx | hx | hx | hx | hx | hx | hx | hx | hx
      · exact absurd (by decide) (noHdr _ hx)
      · exact (profilesSection_hdr r s1 h1).mp hx
      · rcases painSection_safe r _ hx with heq | hno
        · exact absurd heq (by decide)
        · exact absurd (by decide) hno
      · rcases questionsSection_safe r _ hx with heq | hno
        · exact absurd heq (by decide)
        · exact absurd (by decide) hno
      · rcases objectionsSection_safe r _ hx with heq | hno
        · exact absurd heq (by decide)
        · exact absurd (by decide) hno
      · rcases langSection_safe r _ hx with heq | hno
        · exact absurd heq (by decide)
        · exact absurd (by decide) hno
      · rcases vpSection_safe r s6 h6 _ hx with heq | hno
        · exact absurd heq (by decide)
        · exact absurd (by decide) hno
      · rcases mrSection_safe r s7 h7 _ hx with heq | hno
        · exact absurd heq (by decide)
        · exact absurd (by decide) hno
      · rcases mgSection_safe r s8 h8 _ hx with heq | hno
        · exact absurd heq (by decide)
        · exact absurd (by decide) hno
      · rcases ctSection_safe r s9 h9 _ hx with heq | hno
        · exact absurd heq (by decide)
        · exact absurd (by decide) hno
    · intro hc
      exact hback _ (Or.inr (Or.inl ((profilesSection_hdr r s1 h1).mpr hc)))
  · constructor
    · intro hm
      rcases hmem _ hm with hx | hx | hx | hx | hx | hx | hx | hx | hx | hx
      · exact absurd (by decide) (noHdr _ hx)
      · rcases profilesSection_safe r s1 h1 _ hx with heq | hno
        · exact absurd heq (by decide)
        · exact absurd (by decide) hno
      · exact (painSection_hdr r).mp hx
      · rcases questionsSection_safe r _ hx with heq | hno
        · exact absurd heq (by decide)
        · exact absurd (by decide) hno
      · rcases objectionsSection_safe r _ hx with heq | hno
        · exact absurd heq (by decide)
        · exact absurd (by decide) hno
      · rcases langSection_safe r _ hx with heq | hno
        · exact absurd heq (by decide)
        · exact absurd (by decide) hno
      · rcases vpSection_safe r s6 h6 _ hx with heq | hno
        · exact absurd heq (by decide)
        · exact absurd (by decide) hno
      · rcases mrSection_safe r s7 h7 _ hx with heq | hno
        · exact absurd heq (by decide)
        · exact absurd (by decide) hno
      · rcases mgSection_safe r s8 h8 _ hx with heq | hno
        · exact absurd heq (by decide)
        · exact absurd (by decide) hno
      · rcases ctSection_safe r s9 h9 _ hx with heq | hno
        · exact absurd heq (by decide)
        · exact absurd (by decide) hno
    · intro hc
      exact hback _ (Or.inr (Or.inr (Or.inl ((painSection_hdr r).mpr hc))))
  · constructor
    · intro hm
      rcases hmem _ hm with hx | hx | hx | hx | hx | hx | hx | hx | hx | hx
      · exact absurd (by decide) (noHdr _ hx)
      · rcases profilesSection_safe r s1 h1 _ hx with heq | hno
        · exact absurd heq (by decide)
        · exact absurd (by decide) hno
      · rcases painSection_safe r _ hx with heq | hno
        · exact absurd heq (by decide)
        · exact absurd (by decide) hno
      · exact (questionsSection_hdr r).mp hx
      · rcases objectionsSection_safe r _ hx with heq | hno
        · exact absurd heq (by decide)
        · exact absurd (by decide) hno
      · rcases langSection_safe r _ hx with heq | hno
        · exact absurd heq (by decide)
        · exact absurd (by decide) hno
      · rcases vpSection_safe r s6 h6 _ hx with heq | hno
        · exact absurd heq (by decide)
        · exact absurd (by decide) hno
      · rcases mrSection_safe r s7 h7 _ hx with heq | hno
        · exact absurd heq (by decide)
        · exact absurd (by decide) hno
      · rcases mgSection_safe r s8 h8 _ hx with heq | hno
        · exact absurd heq (by decide)
        · exact absurd (by decide) hno
      · rcases ctSection_safe r s9 h9 _ hx with heq | hno
        · exact absurd heq (by decide)
        · exact absurd (by decide) hno
    · intro hc
      exact hback _ (Or.inr (Or.inr (Or.inr (Or.inl
        ((questionsSection_hdr r).mpr hc)))))
  · constructor
    · intro hm
      rcases hmem _ hm with hx | hx | hx | hx | hx | hx | hx | hx | hx | hx
      · exact absurd (by decide) (noHdr _ hx)
      · rcases profilesSection_safe r s1 h1 _ hx with heq | hno
        · exact absurd heq (by decide)
        · exact absurd (by decide) hno
      · rcases painSection_safe r _ hx with heq | hno
        · exact absurd heq (by decide)
        · exact absurd (by decide) hno
      · rcases questionsSection_safe r _ hx with heq | hno
        · exact absurd heq (by decide)
        · exact absurd (by decide) hno
      · exact (objectionsSection_hdr r).mp hx
      · rcases langSection_safe r _ hx with heq | hno
        · exact absurd heq (by decide)
        · exact absurd (by decide) hno
      · rcases vpSection_safe r s6 h6 _ hx with heq | hno
        · exact absurd heq (by decide)
        · exact absurd (by decide) hno
      · rcases mrSection_safe r s7 h7 _ hx with heq | hno
        · exact absurd heq (by decide)
        · exact absurd (by decide) hno
      · rcases mgSection_safe r s8 h8 _ hx with heq | hno
        · exact absurd heq (by decide)
        · exact absurd (by decide) hno
      · rcases ctSection_safe r s9 h9 _ hx with heq | hno
        · exact absurd heq (by decide)
        · exact absurd (by decide) hno
    · intro hc
      exact hback _ (Or.inr (Or.inr (Or.inr (Or.inr (Or.inl
        ((objectionsSection_hdr r).mpr hc))))))
  · constructor
    · intro hm
      rcases hmem _ hm with hx | hx | hx | hx | hx | hx | hx | hx | hx | hx
      · exact absurd (by decide) (noHdr _ hx)
      · rcases profilesSection_safe r s1 h1 _ hx with heq | hno
        · exact absurd heq (by decide)
        · exact absurd (by decide) hno
      · rcases painSection_safe r _ hx with heq | hno
        · exact absurd heq (by decide)
        · exact absurd (by decide) hno
      · rcases questionsSection_safe r _ hx with heq | hno
        · exact absurd heq (by decide)
        · exact absurd (by decide) hno
      · rcases objectionsSection_safe r _ hx with heq | hno
        · exact absurd heq (by decide)
        · exact absurd (by decide) hno
      · exact (langSection_hdr r).mp hx
      · rcases vpSection_safe r s6 h6 _ hx with heq | hno
        · exact absurd heq (by decide)
        · exact absurd (by decide) hno
      · rcases mrSection_safe r s7 h7 _ hx with heq | hno
        · exact absurd heq (by decide)
        · exact absurd (by decide) hno
      · rcases mgSection_safe r s8 h8 _ hx with heq | hno
        · exact absurd heq (by decide)
        · exact absurd (by decide) hno
      · rcases ctSection_safe r s9 h9 _ hx with heq | hno
        · exact absurd heq (by decide)
        · exact absurd (by decide) hno
    · intro hc
      exact hback _ (Or.inr (Or.inr (Or.inr (Or.inr (Or.inr (Or.inl
        ((langSection_hdr r).mpr hc)))))))
  · constructor
    · intro hm
      rcases hmem _ hm with hx | hx | hx | hx | hx | hx | hx | hx | hx | hx
      · exact absurd (by decide) (noHdr _ hx)
      · rcases profilesSection_safe r s1 h1 _ hx with heq | hno
        · exact absurd heq (by decide)
        · exact absurd (by decide) hno
      · rcases painSection_safe r _ hx with heq | hno
        · exact absurd heq (by decide)
        · exact absurd (by decide) hno
      · rcases questionsSection_safe r _ hx with heq | hno
        · exact absurd heq (by decide)
        · exact absurd (by decide) hno
      · rcases objectionsSection_safe r _ hx with heq | hno
        · exact absurd heq (by decide)
        · exact absurd (by decide) hno
      · rcases langSection_safe r _ hx with heq | hno
        · exact absurd heq (by decide)
        · exact absurd (by decide) hno
      · exact (vpSection_hdr r s6 h6).mp hx
      · rcases mrSection_safe r s7 h7 _ hx with heq | hno
        · exact absurd heq (by decide)
        · exact absurd (by decide) hno
      · rcases mgSection_safe r s8 h8 _ hx with heq | hno
        · exact absurd heq (by decide)
        · exact absurd (by decide) hno
      · rcases ctSection_safe r s9 h9 _ hx with heq | hno
        · exact absurd heq (by decide)
        · exact absurd (by decide) hno
    · intro hc
      exact hback _ (Or.inr (Or.inr (Or.inr (Or.inr (Or.inr (Or.inr (Or.inl
        ((vpSection_hdr r s6 h6).mpr hc))))))))
  · constructor
    · intro hm
      rcases hmem _ hm with hx | hx | hx | hx | hx | hx | hx | hx | hx | hx
      · exact absurd (by decide) (noHdr _ hx)
      · rcases profilesSection_safe r s1 h1 _ hx with heq | hno
        · exact absurd heq (by decide)
        · exact absurd (by decide) hno
      · rcases painSection_safe r _ hx with heq | hno
        · exact absurd heq (by decide)
        · exact absurd (by decide) hno
      · rcases questionsSection_safe r _ hx with heq | hno
        · exact absurd heq (by decide)
        · exact absurd (by decide) hno
      · rcases objectionsSection_safe r _ hx with heq | hno
        · exact absurd heq (by decide)
        · exact absurd (by decide) hno
      · rcases langSection_safe r _ hx with heq | hno
        · exact absurd heq (by decide)
        · exact absurd (by decide) hno
      · rcases vpSection_safe r s6 h6 _ hx with heq | hno
        · exact absurd heq (by decide)
        · exact absurd (by decide) hno
      · exact (mrSection_hdr r s7 h7).mp hx
      · rcases mgSection_safe r s8 h8 _ hx with heq | hno
        · exact absurd heq (by decide)
        · exact absurd (by decide) hno
      · rcases ctSection_safe r s9 h9 _ hx with heq | hno
        · exact absurd heq (by decide)
        · exact absurd (by decide) hno
    · intro hc
      exact hback _ (Or.inr (Or.inr (Or.inr (Or.inr (Or.inr (Or.inr (Or.inr
        (Or.inl ((mrSection_hdr r s7 h7).mpr hc)))))))))
  · constructor
    · intro hm
      rcases hmem _ hm with hx | hx | hx | hx | hx | hx | hx | hx | hx | hx
      · exact absurd (by decide) (noHdr _ hx)
      · rcases profilesSection_safe r s1 h1 _ hx with heq | hno
        · exact absurd heq (by decide)
        · exact absurd (by decide) hno
      · rcases painSection_safe r _ hx with heq | hno
        · exact absurd heq (by decide)
        · exact absurd (by decide) hno
      · rcases questionsSection_safe r _ hx with heq | hno
        · exact absurd heq (by decide)
        · exact absurd (by decide) hno
      · rcases objectionsSection_safe r _ hx with heq | hno
        · exact absurd heq (by decide)
        · exact absurd (by decide) hno
      · rcases langSection_safe r _ hx with heq | hno
        · exact absurd heq (by decide)
        · exact absurd (by decide) hno
      · rcases vpSection_safe r s6 h6 _ hx with heq | hno
        · exact absurd heq (by decide)
        · exact absurd (by decide) hno
      · rcases mrSection_safe r s7 h7 _ hx with heq | hno
        · exact absurd heq (by decide)
        · exact absurd (by decide) hno
      · exact (mgSection_hdr r s8 h8).mp hx
      · rcases ctSection_safe r s9 h9 _ hx with heq | hno
        · exact absurd heq (by decide)
        · exact absurd (by decide) hno
    · intro hc
      exact hback _ (Or.inr (Or.inr (Or.inr (Or.inr (Or.inr (Or.inr (Or.inr
        (Or.inr (Or.inl ((mgSection_hdr r s8 h8).mpr hc))))))))))
  · constructor
    · intro hm
      rcases hmem _ hm with hx | hx | hx | hx | hx | hx | hx | hx | hx | hx
      · exact absurd (by decide) (noHdr _ hx)
      · rcases profilesSection_safe r s1 h1 _ hx with heq | hno
        · exact absurd heq (by decide)
        · exact absurd (by decide) hno
      · rcases painSection_safe r _ hx with heq | hno
        · exact absurd heq (by decide)
        · exact absurd (by decide) hno
      · rcases questionsSection_safe r _ hx with heq | hno
        · exact absurd heq (by decide)
        · exact absurd (by decide) hno
      · rcases objectionsSection_safe r _ hx with heq | hno
        · exact absurd heq (by decide)
        · exact absurd (by decide) hno
      · rcases langSection_safe r _ hx with heq | hno
        · exact absurd heq (by decide)
        · exact absurd (by decide) hno
      · rcases vpSection_safe r s6 h6 _ hx with heq | hno
        · exact absurd heq (by decide)
        · exact absurd (by decide) hno
      · rcases mrSection_safe r s7 h7 _ hx with heq | hno
        · exact absurd heq (by decide)
        · exact absurd (by decide) hno
      · rcases mgSection_safe r s8 h8 _ hx with heq | hno
        · exact absurd heq (by decide)
        · exact absurd (by decide) hno
      · exact (ctSection_hdr r s9 h9).mp hx
    · intro hc
      exact hback _ (Or.inr (Or.inr (Or.inr (Or.inr (Or.inr (Or.inr (Or.inr
        (Or.inr (Or.inr ((ctSection_hdr r s9 h9).mpr hc))))))))))
  · intro ob hob
    exact hback _ (Or.inr (Or.inr (Or.inr (Or.inr (Or.inl
      (objectionsSection_quote r ob hob))))))

/-- The objection of the C8 witness. -/
def obC8 : Objection :=
  { objection_text := "zu teuer", direct_quote := "Das ist zu teuer",
    speaker := "Bob", emotional_undertone := "", root_cause := "",
    resolution_pathway := "", conversion_trigger := "" }

/-- The analysis result of the C8 witness: exactly one objection. -/
def rC8 : AnalysisResult := { timestamp := "2026-01-01", objections := [obC8] }

/-- The emitted line list for `rC8`. -/
def c8Lines : List String :=
  ["# Meeting-Analyse Report", "", "**Erstellt:** 2026-01-01",
   "**Analysierte Meetings:** 0", "**Lead-Aussagen:** 0", "", "---", "",
   "## 4. Einwand-Analyse", "", "### \"zu teuer\"", "",
   "> \"Das ist zu teuer\"", "> — *Bob*", "", ""]

/-- Witness for C8 at a concrete one-objection result. -/
theorem C8_markdown_sections_witness :
    build_markdown_lines rC8 = Except.ok c8Lines
    ∧ (("## 1. Kunden-Insight-Profile" ∈ c8Lines ↔ rC8.customer_profiles ≠ [])
      ∧ ("## 2. Pain Point Matrix" ∈ c8Lines ↔ rC8.pain_points ≠ [])
      ∧ ("## 3. Lead-Fragen" ∈ c8Lines ↔ rC8.questions ≠ [])
      ∧ ("## 4. Einwand-Analyse" ∈ c8Lines ↔ rC8.objections ≠ [])
      ∧ ("## 5. Sprachanalyse" ∈ c8Lines ↔ rC8.language_patterns ≠ [])
      ∧ ("## 6. Value Propositions" ∈ c8Lines ↔
          pyTruthy rC8.value_propositions = true)
      ∧ ("## 7. Marketing-Empfehlungen" ∈ c8Lines ↔
          pyTruthy rC8.marketing_recommendations = true)
      ∧ ("## 8. Messaging-Leitfaden" ∈ c8Lines ↔
          pyTruthy rC8.messaging_guidelines = true)
      ∧ ("## 9. Conversion Triggers" ∈ c8Lines ↔
          pyTruthy rC8.conversion_triggers = true)
      ∧ (∀ ob ∈ rC8.objections, ("> \"" ++ ob.direct_quote ++ "\"") ∈ c8Lines)) :=
  ⟨rfl, C8_markdown_sections rC8 c8Lines rfl⟩
